import Mathlib

/-!
Verification of the core of the art-title-generator repository: the client-side
image normalizer (resize + JPEG re-encode + size-bounded quality loop), the
per-task result validators, and the server request handlers with their
two-attempt retry protocol around the external generator.

The embedding is shallow: JavaScript numbers are modelled as exact rationals,
JS strings as Lean strings (one Char per UTF-16 unit), parsed JSON values as an
inductive Json type, and host capabilities (canvas encoding, the OpenAI client,
JSON.parse) as explicit function parameters.
-/

namespace ArtGen

/-! ## JavaScript string primitives -/

/-- Character-list prefix test, mirroring the semantics of JavaScript
String.prototype.startsWith (a unit-by-unit comparison at offset 0). -/
def listIsPfx : List Char → List Char → Bool
  | [], _ => true
  | _ :: _, [] => false
  | a :: as, b :: bs => a == b && listIsPfx as bs

/-- Models JavaScript s.startsWith(pre). -/
def jsStartsWith (s pre : String) : Bool :=
  listIsPfx pre.data s.data

/-- Models JavaScript s.slice(0, n). -/
def jsSlice (s : String) (n : Nat) : String :=
  String.mk (s.data.take n)

/-! ## JSON value model

Values produced by JSON.parse: null, booleans, numbers, strings, arrays and
objects (association lists; JSON.parse yields objects whose keys are unique). -/

inductive Json where
  | null : Json
  | bool : Bool → Json
  | num : ℚ → Json
  | str : String → Json
  | arr : List Json → Json
  | obj : List (String × Json) → Json

namespace Json

/-- JavaScript truthiness of a JSON value. -/
def truthy : Json → Bool
  | .null => false
  | .bool b => b
  | .num q => q != 0
  | .str s => s.length != 0
  | .arr _ => true
  | .obj _ => true

/-- True when the JS expression (typeof v === "object" with v not null) holds,
i.e. the value is an object or an array. -/
def objLike : Json → Bool
  | .obj _ => true
  | .arr _ => true
  | _ => false

/-- True when typeof v === "string". -/
def isStr : Json → Bool
  | .str _ => true
  | _ => false

/-- Property access v.k on a parsed JSON value: for objects, the field when
present; anything else (including arrays, with no such string key) gives
JavaScript undefined, modelled as none. -/
def jget : Json → String → Option Json
  | .obj fs, k => fs.lookup k
  | _, _ => none

/-- The list Object.values(v) for object-like values. -/
def jvalues : Json → List Json
  | .obj fs => fs.map (·.2)
  | .arr xs => xs
  | _ => []

end Json

open Json

/-! ## Result validators (one per task route, translated from the sources) -/

/-- Validator of src/app/api/title/route.ts (isTitleResult): requires tone to
be a string, titles an array of strings, top_rationales an array of objects
carrying string title and why_it_fits, and tags an array of strings. -/
def isTitleResult (value : Json) : Bool :=
  if !value.truthy || !value.objLike then false
  else
    let toneOk := match value.jget "tone" with
      | some v => v.isStr
      | none => false
    let titlesOk := match value.jget "titles" with
      | some (.arr ts) => ts.all isStr
      | _ => false
    let trOk := match value.jget "top_rationales" with
      | some (.arr rs) => rs.all fun r =>
          r.truthy && r.objLike &&
          (match r.jget "title" with | some v => v.isStr | none => false) &&
          (match r.jget "why_it_fits" with | some v => v.isStr | none => false)
      | _ => false
    let tagsOk := match value.jget "tags" with
      | some (.arr ts) => ts.all isStr
      | _ => false
    toneOk && titlesOk && trOk && tagsOk

/-- Validator of src/app/api/critique/route.ts (isCritiqueResult). -/
def isCritiqueResult (value : Json) : Bool :=
  if !value.truthy || !value.objLike then false
  else
    let openingOk := match value.jget "opening" with
      | some (.str s) => decide (s.length > 50)
      | _ => false
    let closingOk := match value.jget "closing" with
      | some (.str s) => decide (s.length > 15)
      | _ => false
    match value.jget "suggestions" with
    | some (.arr ss) =>
      if ss.length < 3 || ss.length > 5 then false
      else
        let suggestionsOk := ss.all fun s =>
          match s with
          | .str t => decide (t.length > 30)
          | _ => false
        openingOk && closingOk && suggestionsOk
    | _ => false

/-- Validator of src/app/api/series/route.ts (isSeriesResult). -/
def isSeriesResult (value : Json) : Bool :=
  if !value.truthy || !value.objLike then false
  else
    let openingOk := match value.jget "opening" with
      | some (.str s) => decide (s.length > 50)
      | _ => false
    let closingOk := match value.jget "closing" with
      | some (.str s) => decide (s.length > 20)
      | _ => false
    match value.jget "ideas" with
    | some (.arr ideas) =>
      if ideas.length ≠ 5 then false
      else
        let ideasOk := ideas.all fun idea =>
          idea.truthy && idea.objLike &&
          (match idea.jget "title" with
            | some (.str s) => decide (s.length > 3) | _ => false) &&
          (match idea.jget "description" with
            | some (.str s) => decide (s.length > 30) | _ => false) &&
          (match idea.jget "practical_note" with
            | some (.str s) => decide (s.length > 20) | _ => false)
        openingOk && closingOk && ideasOk
    | _ => false

/-- Validator of src/app/api/who/route.ts (isWhoResult). -/
def isWhoResult (value : Json) : Bool :=
  if !value.truthy || !value.objLike then false
  else
    match value.jget "artists" with
    | some (.arr artists) =>
      if artists.length < 4 || artists.length > 5 then false
      else
        artists.all fun artist =>
          artist.truthy && artist.objLike &&
          (match artist.jget "name" with
            | some (.str s) => decide (s.length > 2) | _ => false) &&
          (match artist.jget "visual_connection" with
            | some (.str s) => decide (s.length > 50) | _ => false) &&
          (match artist.jget "suggestion" with
            | some (.str s) => decide (s.length > 20) | _ => false)
    | _ => false

/-- Validator of src/app/api/statement/route.ts (isResult). -/
def isStatementResult (value : Json) : Bool :=
  if !value.truthy || !value.objLike then false
  else
    let sOk := match value.jget "statement" with
      | some (.str s) => decide (s.length > 20)
      | _ => false
    let bOk := match value.jget "bio" with
      | some (.str s) => decide (s.length > 20)
      | _ => false
    let tOk := match value.jget "tips" with
      | some (.arr ts) => ts.all isStr
      | _ => false
    sOk && bOk && tOk

/-! ### Abstractify validator (src/app/api/abstractify/route.ts, isResult)

The source iterates paths.every, first adding each path's level to a Set and
then checking the path; the Set is consulted afterwards for the covering-set
condition. The Set is modelled as the list of inserted values (membership
queries are insensitive to duplicates), with the same short-circuiting. -/

/-- The [1,2,3,4,5].includes(levelVal) check of the abstractify validator. -/
def levelIn (p : Json) : Bool :=
  match p.jget "level" with
  | some (.num q) => decide (q = 1) || decide (q = 2) || decide (q = 3) ||
      decide (q = 4) || decide (q = 5)
  | _ => false

/-- The per-path checks of the abstractify validator other than the level
check: label, what_to_do and why_interesting must be strings, and prompts,
when present, must be a non-null object whose values are all strings. -/
def pathOtherOk (p : Json) : Bool :=
  let labelOk := match p.jget "label" with | some v => v.isStr | none => false
  let wtdOk := match p.jget "what_to_do" with | some v => v.isStr | none => false
  let whyOk := match p.jget "why_interesting" with | some v => v.isStr | none => false
  let promptsOk := match p.jget "prompts" with
    | none => true
    | some pr => pr.objLike && (pr.jvalues.all isStr)
  labelOk && wtdOk && whyOk && promptsOk

/-- The body of the abstractify validator's every-callback, after the level
has been added to the set. -/
def pathCheck (p : Json) : Bool :=
  levelIn p && pathOtherOk p

/-- The brief_read check of the abstractify validator. -/
def briefOkA (v : Json) : Bool :=
  match v.jget "brief_read" with
  | some (.str s) => decide (s.length > 20)
  | _ => false

/-- The closing_line check of the abstractify validator. -/
def closingOkA (v : Json) : Bool :=
  match v.jget "closing_line" with
  | some (.str s) => decide (s.length > 5)
  | _ => false

/-- Mirrors paths.every over the abstractify paths while accumulating the
levels Set; returns the value of the every-expression together with the
accumulated set contents. -/
def pathsEvery : List Json → List (Option Json) → Bool × List (Option Json)
  | [], acc => (true, acc)
  | p :: rest, acc =>
    if !p.truthy || !p.objLike then (false, acc)
    else
      if pathCheck p then pathsEvery rest (acc ++ [p.jget "level"])
      else (false, acc ++ [p.jget "level"])

/-- Models the JS expression levels.has(n) for a numeric n: only a stored
number compares equal to n under SameValueZero. -/
def hasNum (levels : List (Option Json)) (n : ℚ) : Bool :=
  levels.any fun v =>
    match v with
    | some (.num m) => m == n
    | _ => false

/-- Validator of src/app/api/abstractify/route.ts (isResult): field checks,
exactly five paths, per-path checks, and the covering-set condition that the
five level values include each of 1..5. -/
def isAbstractResult (value : Json) : Bool :=
  if !value.truthy || !value.objLike then false
  else
    match value.jget "paths" with
    | some (.arr paths) =>
      if paths.length ≠ 5 then false
      else
        briefOkA value && closingOkA value && (pathsEvery paths []).1 &&
          (hasNum (pathsEvery paths []).2 1 && hasNum (pathsEvery paths []).2 2 &&
            hasNum (pathsEvery paths []).2 3 && hasNum (pathsEvery paths []).2 4 &&
            hasNum (pathsEvery paths []).2 5)
    | _ => false

/-- Validators are applied to the result of JSON.parse, which is undefined
(none) when parsing threw. -/
def validOpt (valid : Json → Bool) : Option Json → Bool
  | none => false
  | some j => valid j

/-! ## Image normalizer

JavaScript numbers are modelled as exact rationals. The canvas encoder
canvas.toDataURL("image/jpeg", q) is a host capability, modelled by a
parameter encBody giving the base64 payload produced at quality q; per the
HTML canvas specification the returned URI is the payload behind the
data:image/jpeg;base64, header. -/

/-- Models canvas.toDataURL("image/jpeg", q) for a canvas with at least one
pixel. The HTML specification additionally makes a canvas with no pixels
encode to the string "data:,"; canvasToDataURL below adds that rule on top
of this positive-area encode. -/
def toDataURL (encBody : ℚ → String) (q : ℚ) : String :=
  "data:image/jpeg;base64," ++ encBody q

/-- The scaleToFit of the abstractify page (src/unnamed/part_002 lines 72-75):
scale = min(1, maxEdge / max(w, h)), rounding each scaled dimension. -/
def scaleToFit (w h maxEdge : ℕ) : ℤ × ℤ :=
  let scale : ℚ := min 1 ((maxEdge : ℚ) / (max w h : ℕ))
  (round ((w : ℚ) * scale), round ((h : ℚ) * scale))

/-- The scaleToFit of the who/critique/series pages (src/unnamed/part_000
lines 84-88): returns the dimensions unchanged when both fit, otherwise
scales by min(maxEdge / w, maxEdge / h). -/
def scaleToFitGuarded (w h maxEdge : ℕ) : ℤ × ℤ :=
  if w ≤ maxEdge ∧ h ≤ maxEdge then ((w : ℤ), (h : ℤ))
  else
    let scale : ℚ := min ((maxEdge : ℚ) / w) ((maxEdge : ℚ) / h)
    (round ((w : ℚ) * scale), round ((h : ℚ) * scale))

/-- The while-loop shared by the compression variants: while cond(q) holds,
decrease the quality by 0.05 and re-encode. The loop is given as structural
recursion on a fuel bound; qFuel below supplies enough fuel that the loop
always exits through its condition (lemma qualityLoop_cond_false). -/
def qualityLoop (cond : ℚ → Bool) : ℕ → ℚ → ℚ
  | 0, q => q
  | n + 1, q => if cond q then qualityLoop cond n (q - 1 / 20) else q

/-- Fuel sufficient for a quality loop starting at q0 with floor floorQ and
step 0.05: the number of steps needed to reach the floor. -/
def qFuel (q0 floorQ : ℚ) : ℕ :=
  (⌈(q0 - floorQ) * 20⌉).toNat

/-- Loop condition of the who/critique/series-page variant
(src/unnamed/part_000 lines 47-50): outDataUrl.length > maxBytes and
currentQuality > 0.4. -/
def whoCond (encBody : ℚ → String) (maxBytes : ℚ) (q : ℚ) : Bool :=
  decide (((toDataURL encBody q).length : ℚ) > maxBytes) && decide (q > 2 / 5)

/-- Final quality reached by the who/critique/series-page compression loop. -/
def whoFinalQ (encBody : ℚ → String) (maxBytes : ℚ) (q0 : ℚ) : ℚ :=
  qualityLoop (whoCond encBody maxBytes) (qFuel q0 (2 / 5)) q0

/-- Compression stage of resizeAndConvertToJpeg in the who page
(src/unnamed/part_000 lines 44-52, identically src/unnamed/part_003 and the
series page): encode at the start quality, lower the quality while the data
URL is longer than maxBytes and the quality is above 0.4, then return the
last data URL unconditionally. -/
def whoCompress (encBody : ℚ → String) (maxBytes : ℚ) (q0 : ℚ) : String :=
  toDataURL encBody (whoFinalQ encBody maxBytes q0)

/-- The who-page resizeAndConvertToJpeg on a successfully decoded bitmap of
dimensions w x h whose scaled canvas has at least one pixel: scale to fit,
then compress; every success returns the compressed data URL. The fully
general model including the zero-pixel encoder rule is resizeWhoFull. -/
def resizeWho (encBody : ℚ → String) (w h maxEdge : ℕ) (quality maxBytes : ℚ) :
    (ℤ × ℤ) × String :=
  (scaleToFitGuarded w h maxEdge, whoCompress encBody maxBytes quality)

/-- Loop condition of compressCanvas (src/unnamed/part_002 line 85):
dataUrl.length * 0.75 > maxBytes and q > 0.5. -/
def ccCond (encBody : ℚ → String) (maxBytes : ℚ) (q : ℚ) : Bool :=
  decide (((toDataURL encBody q).length : ℚ) * (3 / 4) > maxBytes) &&
    decide (q > 1 / 2)

/-- Final quality reached by the compressCanvas loop. -/
def ccFinalQ (encBody : ℚ → String) (maxBytes : ℚ) (q0 : ℚ) : ℚ :=
  qualityLoop (ccCond encBody maxBytes) (qFuel q0 (1 / 2)) q0

/-- compressCanvas of the abstractify page (src/unnamed/part_002 lines
77-93): lower the quality while the estimated byte size dataUrl.length * 0.75
exceeds maxBytes and the quality is above 0.5; if the estimate still exceeds
maxBytes afterwards, throw, else return the data URL. -/
def compressCanvas (encBody : ℚ → String) (startQuality maxBytes : ℚ) :
    Except String String :=
  if (((toDataURL encBody (ccFinalQ encBody maxBytes startQuality)).length : ℚ)) * (3 / 4) >
      maxBytes then
    .error "Image is too large. Try a smaller/cropped photo."
  else
    .ok (toDataURL encBody (ccFinalQ encBody maxBytes startQuality))

/-- The abstractify-page resizeAndConvertToJpeg on a successfully decoded
bitmap whose scaled canvas has at least one pixel: scale to fit, draw, then
compressCanvas (src/unnamed/part_002 lines 26-70); failures of
compressCanvas propagate. The fully general model including the zero-pixel
encoder rule is resizeAbstractifyFull. -/
def resizeAbstractify (encBody : ℚ → String) (w h maxEdge : ℕ)
    (quality maxBytes : ℚ) : Except String ((ℤ × ℤ) × String) :=
  match compressCanvas encBody quality maxBytes with
  | .error e => .error e
  | .ok s => .ok (scaleToFit w h maxEdge, s)

/-! ### The canvas encoder in full

The HTML canvas specification makes toDataURL return the string "data:,"
when the canvas has no pixels (either dimension zero), and scaleToFit can
round a dimension to zero on real inputs (extreme aspect ratios), so the
complete normalizer model must thread the scaled canvas dimensions into the
encoder. The definitions below redo the two resizeAndConvertToJpeg variants
with this full encoder. -/

/-- Models canvas.toDataURL("image/jpeg", q) for a canvas with the given
pixel dimensions: a canvas with no pixels encodes to "data:,", any other
canvas to the JPEG data URL. -/
def canvasToDataURL (dims : ℤ × ℤ) (encBody : ℚ → String) (q : ℚ) : String :=
  if dims.1 = 0 ∨ dims.2 = 0 then "data:," else toDataURL encBody q

/-- Loop condition of the who/critique/series-page compression loop on a
canvas of the given dimensions. -/
def whoCondOn (dims : ℤ × ℤ) (encBody : ℚ → String) (maxBytes q : ℚ) : Bool :=
  decide (((canvasToDataURL dims encBody q).length : ℚ) > maxBytes) &&
    decide (q > 2 / 5)

/-- Final quality reached by the who/critique/series-page compression loop
on a canvas of the given dimensions. -/
def whoFinalQOn (dims : ℤ × ℤ) (encBody : ℚ → String) (maxBytes q0 : ℚ) : ℚ :=
  qualityLoop (whoCondOn dims encBody maxBytes) (qFuel q0 (2 / 5)) q0

/-- The who-page resizeAndConvertToJpeg with the canvas encoder modelled in
full: scale, draw on a canvas of the scaled dimensions, run the quality
loop, return the last data URL of that canvas. -/
def resizeWhoFull (encBody : ℚ → String) (w h maxEdge : ℕ)
    (quality maxBytes : ℚ) : (ℤ × ℤ) × String :=
  (scaleToFitGuarded w h maxEdge,
    canvasToDataURL (scaleToFitGuarded w h maxEdge) encBody
      (whoFinalQOn (scaleToFitGuarded w h maxEdge) encBody maxBytes quality))

/-- compressCanvas loop condition on a canvas of the given dimensions. -/
def ccCondOn (dims : ℤ × ℤ) (encBody : ℚ → String) (maxBytes q : ℚ) : Bool :=
  decide (((canvasToDataURL dims encBody q).length : ℚ) * (3 / 4) > maxBytes) &&
    decide (q > 1 / 2)

/-- Final quality reached by the compressCanvas loop on a canvas of the
given dimensions. -/
def ccFinalQOn (dims : ℤ × ℤ) (encBody : ℚ → String) (maxBytes q0 : ℚ) : ℚ :=
  qualityLoop (ccCondOn dims encBody maxBytes) (qFuel q0 (1 / 2)) q0

/-- compressCanvas of the abstractify page on a canvas of the given
dimensions, with the zero-pixel encoder rule. -/
def compressCanvasOn (dims : ℤ × ℤ) (encBody : ℚ → String)
    (startQuality maxBytes : ℚ) : Except String String :=
  if (((canvasToDataURL dims encBody
        (ccFinalQOn dims encBody maxBytes startQuality)).length : ℚ)) * (3 / 4) >
      maxBytes then
    .error "Image is too large. Try a smaller/cropped photo."
  else
    .ok (canvasToDataURL dims encBody (ccFinalQOn dims encBody maxBytes startQuality))

/-- The abstractify-page resizeAndConvertToJpeg with the full canvas
encoder model. -/
def resizeAbstractifyFull (encBody : ℚ → String) (w h maxEdge : ℕ)
    (quality maxBytes : ℚ) : Except String ((ℤ × ℤ) × String) :=
  match compressCanvasOn (scaleToFit w h maxEdge) encBody quality maxBytes with
  | .error e => .error e
  | .ok s => .ok (scaleToFit w h maxEdge, s)

/-! ## Request handlers

Each POST handler is modelled as a function of the parsed request body (error
for a body that failed JSON parsing), the external generator capability gen
(argument: strict mode; a thrown transport error is modelled as Except.error
carrying the error message), and the host JSON.parse capability (none for a
parse failure). The result records the HTTP status, the JSON response body,
and how many calls were issued to the generator. Messages of host-raised
TypeErrors are abstracted as the placeholder string "TypeError". -/

structure HResp where
  status : ℕ
  body : Json
  calls : ℕ

/-- The JSON error body of a rejected request. -/
def errBody (msg : String) : Json := .obj [("error", .str msg)]

/-- The JSON body of an upstream-format failure, with debug excerpt. -/
def errDebugBody (msg dbg : String) : Json :=
  .obj [("error", .str msg), ("debug", .str dbg)]

/-- Placeholder for the message of a host-raised TypeError. -/
def typeErrorMsg : String := "TypeError"

/-- Truthiness of a possibly-undefined JS value. -/
def optTruthy : Option Json → Bool
  | none => false
  | some j => j.truthy

/-- Whether sub occurs as a substring, mirroring JS s.includes(sub). -/
def hasSubList : List Char → List Char → Bool
  | sub, [] => listIsPfx sub []
  | sub, l@(_ :: t) => listIsPfx sub l || hasSubList sub t

/-- Models JS s.includes(sub). -/
def jsIncludes (s sub : String) : Bool := hasSubList sub.data s.data

/-- The two-attempt validate/retry protocol shared by the title, critique,
series, who and abstractify routes: call the generator leniently, parse and
validate; on failure call it strictly, parse and validate; on second failure
answer 502 with the last raw text truncated to 4000 characters. A generator
throw is caught by the route's outer catch and becomes a 500 whose message is
post-processed by catchMsg (the identity except in the title route). -/
def retryCore (valid : Json → Bool) (msg502 : String) (catchMsg : String → String)
    (gen : Bool → Except String String) (parse : String → Option Json) : HResp :=
  match gen false with
  | .error e => ⟨500, errBody (catchMsg e), 1⟩
  | .ok t1 =>
    if validOpt valid (parse t1) then ⟨200, (parse t1).getD .null, 1⟩
    else
      match gen true with
      | .error e => ⟨500, errBody (catchMsg e), 2⟩
      | .ok t2 =>
        if validOpt valid (parse t2) then ⟨200, (parse t2).getD .null, 2⟩
        else ⟨502, errDebugBody msg502 (jsSlice t2 4000), 2⟩

/-- Message post-processing of the title route's catch block: messages
containing "Invalid" are prefixed. -/
def titleCatchMsg (e : String) : String :=
  if jsIncludes e "Invalid" then "Image processing error: " ++ e else e

/-- POST of src/app/api/title/route.ts: 400 on malformed body, missing or
non-image-data-URI image, or an image payload above 10,000,000 characters;
otherwise the two-attempt protocol with the title validator. -/
def titlePOST (bodyJ : Except String Json) (gen : Bool → Except String String)
    (parse : String → Option Json) : HResp :=
  match bodyJ with
  | .error _ => ⟨400, errBody "Invalid request body", 0⟩
  | .ok .null => ⟨500, errBody (titleCatchMsg typeErrorMsg), 0⟩
  | .ok b =>
    match b.jget "imageDataUrl" with
    | none => ⟨400, errBody "Missing or invalid image", 0⟩
    | some .null => ⟨400, errBody "Missing or invalid image", 0⟩
    | some (.str s) =>
      if !(jsStartsWith s "data:image/") then
        ⟨400, errBody "Missing or invalid image", 0⟩
      else if s.length > 10000000 then
        ⟨400, errBody "Image too large. Please use a smaller image.", 0⟩
      else
        retryCore isTitleResult "The model returned an unexpected format."
          titleCatchMsg gen parse
    | some _ => ⟨500, errBody (titleCatchMsg typeErrorMsg), 0⟩

/-- The image guard shared by the abstractify, critique and series routes:
if (!imageDataUrl?.startsWith("data:image/")) respond 400, else run the
two-attempt protocol. Unlike the title route there is no size ceiling, and a
body parse failure is caught by the outer catch (500). -/
def imageGuardPOST (valid : Json → Bool) (bodyJ : Except String Json)
    (gen : Bool → Except String String) (parse : String → Option Json) : HResp :=
  match bodyJ with
  | .error e => ⟨500, errBody e, 0⟩
  | .ok .null => ⟨500, errBody typeErrorMsg, 0⟩
  | .ok b =>
    match b.jget "imageDataUrl" with
    | none => ⟨400, errBody "Missing or invalid image", 0⟩
    | some .null => ⟨400, errBody "Missing or invalid image", 0⟩
    | some (.str s) =>
      if !(jsStartsWith s "data:image/") then
        ⟨400, errBody "Missing or invalid image", 0⟩
      else
        retryCore valid "Unexpected format from model." id gen parse
    | some _ => ⟨500, errBody typeErrorMsg, 0⟩

/-- POST of src/app/api/abstractify/route.ts. -/
def abstractifyPOST (bodyJ : Except String Json)
    (gen : Bool → Except String String) (parse : String → Option Json) : HResp :=
  imageGuardPOST isAbstractResult bodyJ gen parse

/-- POST of the critique route (the second document embedded in
src/app/api/title/route.ts). -/
def critiquePOST (bodyJ : Except String Json)
    (gen : Bool → Except String String) (parse : String → Option Json) : HResp :=
  imageGuardPOST isCritiqueResult bodyJ gen parse

/-- POST of src/app/api/series/route.ts. -/
def seriesPOST (bodyJ : Except String Json)
    (gen : Bool → Except String String) (parse : String → Option Json) : HResp :=
  imageGuardPOST isSeriesResult bodyJ gen parse

/-- Tail of the who route once the two input guards have been passed. -/
def whoRetry (gen : Bool → Except String String)
    (parse : String → Option Json) : HResp :=
  retryCore isWhoResult "Unexpected format from model." id gen parse

/-- The who route's second guard:
if (imageDataUrl && !imageDataUrl.startsWith("data:image/")) respond 400.
A truthy non-string image makes .startsWith throw (500). -/
def whoImageGuard (img : Option Json) (gen : Bool → Except String String)
    (parse : String → Option Json) : HResp :=
  match img with
  | some (.str s) =>
    if s.length != 0 && !(jsStartsWith s "data:image/") then
      ⟨400, errBody "Invalid image format", 0⟩
    else whoRetry gen parse
  | none => whoRetry gen parse
  | some .null => whoRetry gen parse
  | some v =>
    if v.truthy then ⟨500, errBody typeErrorMsg, 0⟩
    else whoRetry gen parse

/-- POST of src/app/api/who/route.ts: 400 when neither an image nor a
non-blank description is supplied; 400 when a supplied image is not an
image data URI; no size ceiling; then the two-attempt protocol with the
who validator. -/
def whoPOST (bodyJ : Except String Json) (gen : Bool → Except String String)
    (parse : String → Option Json) : HResp :=
  match bodyJ with
  | .error e => ⟨500, errBody e, 0⟩
  | .ok .null => ⟨500, errBody typeErrorMsg, 0⟩
  | .ok b =>
    if !(optTruthy (b.jget "imageDataUrl")) then
      match b.jget "description" with
      | none =>
        ⟨400, errBody "Please provide either an image or a description", 0⟩
      | some .null =>
        ⟨400, errBody "Please provide either an image or a description", 0⟩
      | some (.str s) =>
        if s.trim.length == 0 then
          ⟨400, errBody "Please provide either an image or a description", 0⟩
        else whoImageGuard (b.jget "imageDataUrl") gen parse
      | some _ => ⟨500, errBody typeErrorMsg, 0⟩
    else whoImageGuard (b.jget "imageDataUrl") gen parse

/-- POST of src/app/api/statement/route.ts: a single generator call, one
parse/validate pass, 502 with a 2000-character debug excerpt on failure.
There is no second attempt in this route. -/
def statementPOST (bodyJ : Except String Json)
    (gen : Bool → Except String String) (parse : String → Option Json) : HResp :=
  match bodyJ with
  | .error e => ⟨500, errBody e, 0⟩
  | .ok .null => ⟨500, errBody typeErrorMsg, 0⟩
  | .ok _ =>
    match gen false with
    | .error e => ⟨500, errBody e, 1⟩
    | .ok t =>
      if validOpt isStatementResult (parse t) then ⟨200, (parse t).getD .null, 1⟩
      else ⟨502, errDebugBody "Unexpected format from model." (jsSlice t 2000), 1⟩

/-- A guard response: a 400 or 500 answered before any generator call, whose
body is a bare error object. -/
def isGuard (r : HResp) : Prop :=
  ∃ st m, (st = 400 ∨ st = 500) ∧ r = ⟨st, errBody m, 0⟩

/-- The response body carries a string error field. -/
def errShape (j : Json) : Prop :=
  ∃ s, j.jget "error" = some (.str s)

/-- The response body carries a string debug field of at most 4000
characters. -/
def debugShape (j : Json) : Prop :=
  ∃ s, j.jget "debug" = some (.str s) ∧ s.length ≤ 4000

/-- A concrete 10,500,000-character image data URL: the 11-character
data:image/ marker followed by 10,499,989 filler characters. Used to probe
the handlers' payload size ceilings. -/
def bigImage : String :=
  "data:image/" ++ String.mk (List.replicate 10499989 'a')

/-! ## Lemmas: the compression loop -/

theorem qualityLoop_eq_of_cond_false {cond : ℚ → Bool} {q : ℚ}
    (h : cond q = false) : ∀ fuel, qualityLoop cond fuel q = q
  | 0 => rfl
  | _ + 1 => by simp [qualityLoop, h]

/-- With enough fuel the loop only stops when its condition is false; the
floor hypothesis guarantees the condition fails once the quality has dropped
to the floor. -/
theorem qualityLoop_exit (cond : ℚ → Bool) (floorQ : ℚ)
    (hc : ∀ q : ℚ, q ≤ floorQ → cond q = false) :
    ∀ (fuel : ℕ) (q : ℚ), (q - floorQ) * 20 ≤ (fuel : ℚ) →
      cond (qualityLoop cond fuel q) = false := by
  intro fuel
  induction fuel with
  | zero =>
    intro q hq
    have hqf : q ≤ floorQ := by push_cast at hq; linarith
    simpa [qualityLoop] using hc q hqf
  | succ n ih =>
    intro q hq
    by_cases hcq : cond q = true
    · have hstep : (q - 1 / 20 - floorQ) * 20 ≤ (n : ℚ) := by
        push_cast at hq ⊢; linarith
      simpa [qualityLoop, hcq] using ih (q - 1 / 20) hstep
    · have hf : cond q = false := by simpa using hcq
      rw [qualityLoop_eq_of_cond_false hf]
      exact hf

/-- The loop's result is the start quality lowered by exactly 0.05 per
iteration, and every quality seen before the last satisfied the loop
condition. -/
theorem qualityLoop_shape (cond : ℚ → Bool) :
    ∀ (fuel : ℕ) (q0 : ℚ), ∃ k : ℕ,
      qualityLoop cond fuel q0 = q0 - (k : ℚ) * (1 / 20) ∧
      ∀ j : ℕ, j < k → cond (q0 - (j : ℚ) * (1 / 20)) = true := by
  intro fuel
  induction fuel with
  | zero =>
    intro q0
    exact ⟨0, by simp [qualityLoop], fun j hj => absurd hj (by omega)⟩
  | succ n ih =>
    intro q0
    by_cases hc : cond q0 = true
    · obtain ⟨k, hk, hall⟩ := ih (q0 - 1 / 20)
      refine ⟨k + 1, ?_, ?_⟩
      · rw [show qualityLoop cond (n + 1) q0 = qualityLoop cond n (q0 - 1 / 20) by
            simp [qualityLoop, hc], hk]
        push_cast
        ring
      · intro j hj
        cases j with
        | zero => simpa using hc
        | succ i =>
          have hi := hall i (by omega)
          have heq : q0 - 1 / 20 - (i : ℚ) * (1 / 20) =
              q0 - ((i + 1 : ℕ) : ℚ) * (1 / 20) := by push_cast; ring
          rwa [heq] at hi
    · have hf : cond q0 = false := by simpa using hc
      exact ⟨0, by simp [qualityLoop_eq_of_cond_false hf], fun j hj => absurd hj (by omega)⟩

theorem le_qFuel (q0 floorQ : ℚ) : (q0 - floorQ) * 20 ≤ (qFuel q0 floorQ : ℚ) := by
  unfold qFuel
  calc (q0 - floorQ) * 20 ≤ (⌈(q0 - floorQ) * 20⌉ : ℚ) := Int.le_ceil _
    _ ≤ ((⌈(q0 - floorQ) * 20⌉.toNat : ℤ) : ℚ) := by
        exact_mod_cast Int.self_le_toNat _
    _ = _ := by push_cast; ring

theorem whoCond_of_le_floor (encBody : ℚ → String) (maxBytes : ℚ) :
    ∀ q : ℚ, q ≤ 2 / 5 → whoCond encBody maxBytes q = false := by
  intro q hq
  simp only [whoCond, Bool.and_eq_false_iff, decide_eq_false_iff_not, not_lt]
  exact Or.inr hq

theorem ccCond_of_le_floor (encBody : ℚ → String) (maxBytes : ℚ) :
    ∀ q : ℚ, q ≤ 1 / 2 → ccCond encBody maxBytes q = false := by
  intro q hq
  simp only [ccCond, Bool.and_eq_false_iff, decide_eq_false_iff_not, not_lt]
  exact Or.inr hq

theorem whoCond_final (encBody : ℚ → String) (maxBytes q0 : ℚ) :
    whoCond encBody maxBytes (whoFinalQ encBody maxBytes q0) = false :=
  qualityLoop_exit _ (2 / 5) (whoCond_of_le_floor _ _) _ _ (le_qFuel q0 (2 / 5))

theorem ccCond_final (encBody : ℚ → String) (maxBytes q0 : ℚ) :
    ccCond encBody maxBytes (ccFinalQ encBody maxBytes q0) = false :=
  qualityLoop_exit _ (1 / 2) (ccCond_of_le_floor _ _) _ _ (le_qFuel q0 (1 / 2))

/-- Extra faithfulness check for the fuel encoding of the while loop: fuel
beyond the point where the condition fails does not change the result. -/
theorem qualityLoop_fuel_irrel (cond : ℚ → Bool) :
    ∀ (n m : ℕ) (q : ℚ), cond (qualityLoop cond n q) = false →
      qualityLoop cond (n + m) q = qualityLoop cond n q := by
  intro n
  induction n with
  | zero =>
    intro m q h
    simp only [qualityLoop] at h
    simpa [qualityLoop] using qualityLoop_eq_of_cond_false h m
  | succ n ih =>
    intro m q h
    by_cases hc : cond q = true
    · have hstep : qualityLoop cond (n + 1) q = qualityLoop cond n (q - 1 / 20) := by
        simp [qualityLoop, hc]
      rw [hstep] at h
      have : n + 1 + m = (n + m) + 1 := by omega
      rw [this]
      have : qualityLoop cond ((n + m) + 1) q = qualityLoop cond (n + m) (q - 1 / 20) := by
        simp [qualityLoop, hc]
      rw [this, hstep, ih m _ h]
    · have hf : cond q = false := by simpa using hc
      rw [qualityLoop_eq_of_cond_false hf, qualityLoop_eq_of_cond_false hf]

/-- C2. In both compression-loop variants the quality sequence starts at the
start quality, decreases by exactly 0.05 per iteration (so the final quality
is the start quality minus 0.05 times the iteration count, and is never above
the start quality), every quality before the last still satisfied the loop
condition, and the loop stops exactly when the encoded size fits maxBytes or
the quality is no longer above the floor (0.4 in the who/critique/series
variant, 0.5 in the abstractify variant). -/
theorem compression_quality_loop (encBody : ℚ → String) (maxBytes q0 : ℚ) :
    ((∃ k : ℕ, whoFinalQ encBody maxBytes q0 = q0 - (k : ℚ) * (1 / 20) ∧
        ∀ j : ℕ, j < k →
          ((toDataURL encBody (q0 - (j : ℚ) * (1 / 20))).length : ℚ) > maxBytes ∧
            q0 - (j : ℚ) * (1 / 20) > 2 / 5) ∧
      whoFinalQ encBody maxBytes q0 ≤ q0 ∧
      (((toDataURL encBody (whoFinalQ encBody maxBytes q0)).length : ℚ) ≤ maxBytes ∨
        whoFinalQ encBody maxBytes q0 ≤ 2 / 5)) ∧
    ((∃ k : ℕ, ccFinalQ encBody maxBytes q0 = q0 - (k : ℚ) * (1 / 20) ∧
        ∀ j : ℕ, j < k →
          ((toDataURL encBody (q0 - (j : ℚ) * (1 / 20))).length : ℚ) * (3 / 4) > maxBytes ∧
            q0 - (j : ℚ) * (1 / 20) > 1 / 2) ∧
      ccFinalQ encBody maxBytes q0 ≤ q0 ∧
      (((toDataURL encBody (ccFinalQ encBody maxBytes q0)).length : ℚ) * (3 / 4) ≤ maxBytes ∨
        ccFinalQ encBody maxBytes q0 ≤ 1 / 2)) := by
  constructor
  · obtain ⟨k, hk, hall⟩ := qualityLoop_shape (whoCond encBody maxBytes) (qFuel q0 (2 / 5)) q0
    refine ⟨⟨k, hk, ?_⟩, ?_, ?_⟩
    · intro j hj
      have := hall j hj
      simpa [whoCond] using this
    · rw [whoFinalQ, hk]
      have : (0 : ℚ) ≤ (k : ℚ) * (1 / 20) := by positivity
      linarith
    · have hfin := whoCond_final encBody maxBytes q0
      rw [whoCond, Bool.and_eq_false_iff] at hfin
      rcases hfin with h1 | h2
      · exact Or.inl (not_lt.mp (of_decide_eq_false h1))
      · exact Or.inr (not_lt.mp (of_decide_eq_false h2))
  · obtain ⟨k, hk, hall⟩ := qualityLoop_shape (ccCond encBody maxBytes) (qFuel q0 (1 / 2)) q0
    refine ⟨⟨k, hk, ?_⟩, ?_, ?_⟩
    · intro j hj
      have := hall j hj
      simpa [ccCond] using this
    · rw [ccFinalQ, hk]
      have : (0 : ℚ) ≤ (k : ℚ) * (1 / 20) := by positivity
      linarith
    · have hfin := ccCond_final encBody maxBytes q0
      rw [ccCond, Bool.and_eq_false_iff] at hfin
      rcases hfin with h1 | h2
      · exact Or.inl (not_lt.mp (of_decide_eq_false h1))
      · exact Or.inr (not_lt.mp (of_decide_eq_false h2))

/-- C1 (amended part). The abstractify-page variant compressCanvas does
satisfy the budget invariant: every successful return has estimated byte
length (0.75 characters per byte of base64 payload, as the source computes
it) at most maxBytes; when the budget cannot be met it throws. -/
theorem compressCanvas_ok_bound (encBody : ℚ → String) (q0 maxBytes : ℚ)
    (s : String) (h : compressCanvas encBody q0 maxBytes = .ok s) :
    ((s.length : ℚ)) * (3 / 4) ≤ maxBytes := by
  unfold compressCanvas at h
  split at h
  · exact absurd h (by simp)
  · next hc =>
    have hs : toDataURL encBody (ccFinalQ encBody maxBytes q0) = s := by
      injection h
    rw [← hs]
    exact le_of_not_lt hc

/-- Length of the data URL produced by the empty-payload encoder. -/
theorem toDataURL_empty_len (q : ℚ) : (toDataURL (fun _ => "") q).length = 23 := rfl

/-- Concrete evaluation of compressCanvas on the empty-payload encoder with a
generous budget: the loop exits immediately and the call succeeds. -/
theorem compressCanvas_empty_eval :
    compressCanvas (fun _ => "") (41 / 50) 100 = .ok "data:image/jpeg;base64," := by
  have hc : ∀ q : ℚ, ccCond (fun _ => "") 100 q = false := by
    intro q
    simp only [ccCond, Bool.and_eq_false_iff, decide_eq_false_iff_not, not_lt]
    left
    rw [toDataURL_empty_len]
    norm_num
  unfold compressCanvas ccFinalQ
  rw [qualityLoop_eq_of_cond_false (hc _)]
  rw [if_neg ?hbound]
  case hbound =>
    rw [toDataURL_empty_len]
    norm_num
  rfl

/-- C2 witness: at a start quality already at or below both floors, both
loops stop at once with the quality no longer above the floor. -/
theorem compression_quality_loop_witness :
    whoFinalQ (fun _ => "") 100 (2 / 5) ≤ 2 / 5 ∧
      ccFinalQ (fun _ => "") 100 (2 / 5) ≤ 2 / 5 :=
  ⟨le_of_le_of_eq (compression_quality_loop (fun _ => "") 100 (2 / 5)).1.2.1 rfl,
    le_of_le_of_eq (compression_quality_loop (fun _ => "") 100 (2 / 5)).2.2.1 rfl⟩

/-- C1 witness: a concrete successful compressCanvas run obeying the bound. -/
theorem compressCanvas_ok_bound_witness :
    compressCanvas (fun _ => "") (41 / 50) 100 = .ok "data:image/jpeg;base64," ∧
      ((("data:image/jpeg;base64," : String).length : ℚ)) * (3 / 4) ≤ 100 :=
  ⟨compressCanvas_empty_eval,
    compressCanvas_ok_bound (fun _ => "") (41 / 50) 100 _ compressCanvas_empty_eval⟩

/-- C1 counterexample to the claim as stated: the who/critique/series-page
variant of resizeAndConvertToJpeg, run with an encoder whose output data URL
always has 23 characters and a maxBytes budget of 10, runs the quality loop
down to the floor and then returns the oversized payload successfully (this
variant has no failure path for the size budget), so the returned payload
exceeds maxBytes both as a character count and as an estimated byte count. -/
theorem who_normalizer_oversized_cex :
    ((resizeWho (fun _ => "") 100 100 1200 (22 / 25) 10).2.length : ℚ) > 10 ∧
      ((resizeWho (fun _ => "") 100 100 1200 (22 / 25) 10).2.length : ℚ) * (3 / 4) > 10 := by
  have hlen : (resizeWho (fun _ => "") 100 100 1200 (22 / 25) 10).2.length = 23 := rfl
  rw [hlen]
  norm_num

/-! ## Lemmas: scaling -/

theorem round_mono_q {x y : ℚ} (h : x ≤ y) : round x ≤ round y := by
  rw [round_eq, round_eq]
  exact Int.floor_le_floor (by linarith)

/-- The scale factor of the unguarded variant is at most 1, so rounding a
scaled dimension never exceeds the original dimension. -/
theorem scaleToFit_le (w h m : ℕ) :
    (scaleToFit w h m).1 ≤ (w : ℤ) ∧ (scaleToFit w h m).2 ≤ (h : ℤ) := by
  unfold scaleToFit
  have hs1 : min 1 ((m : ℚ) / ((max w h : ℕ) : ℚ)) ≤ 1 := min_le_left _ _
  constructor
  · calc round ((w : ℚ) * min 1 ((m : ℚ) / ((max w h : ℕ) : ℚ)))
        ≤ round ((w : ℚ)) := round_mono_q (mul_le_of_le_one_right (by positivity) hs1)
      _ = (w : ℤ) := round_natCast w
  · calc round ((h : ℚ) * min 1 ((m : ℚ) / ((max w h : ℕ) : ℚ)))
        ≤ round ((h : ℚ)) := round_mono_q (mul_le_of_le_one_right (by positivity) hs1)
      _ = (h : ℤ) := round_natCast h

theorem scaleToFitGuarded_le (w h m : ℕ) :
    (scaleToFitGuarded w h m).1 ≤ (w : ℤ) ∧ (scaleToFitGuarded w h m).2 ≤ (h : ℤ) := by
  unfold scaleToFitGuarded
  by_cases hb : w ≤ m ∧ h ≤ m
  · rw [if_pos hb]
    exact ⟨le_refl _, le_refl _⟩
  · rw [if_neg hb]
    have hs1 : min ((m : ℚ) / w) ((m : ℚ) / h) ≤ 1 := by
      rcases not_and_or.mp hb with hw | hh
      · have hw' : m < w := Nat.lt_of_not_le hw
        have hwn : 0 < w := by omega
        have hwpos : (0 : ℚ) < (w : ℚ) := by exact_mod_cast hwn
        exact le_trans (min_le_left _ _) ((div_le_one hwpos).mpr (by exact_mod_cast hw'.le))
      · have hh' : m < h := Nat.lt_of_not_le hh
        have hhn : 0 < h := by omega
        have hhpos : (0 : ℚ) < (h : ℚ) := by exact_mod_cast hhn
        exact le_trans (min_le_right _ _) ((div_le_one hhpos).mpr (by exact_mod_cast hh'.le))
    constructor
    · calc round ((w : ℚ) * min ((m : ℚ) / w) ((m : ℚ) / h))
          ≤ round ((w : ℚ)) := round_mono_q (mul_le_of_le_one_right (by positivity) hs1)
        _ = (w : ℤ) := round_natCast w
    · calc round ((h : ℚ) * min ((m : ℚ) / w) ((m : ℚ) / h))
          ≤ round ((h : ℚ)) := round_mono_q (mul_le_of_le_one_right (by positivity) hs1)
        _ = (h : ℤ) := round_natCast h

/-- When both dimensions already fit, the formula variant returns them
unchanged. -/
theorem scaleToFit_id (w h m : ℕ) (hw : w ≤ m) (hh : h ≤ m) :
    scaleToFit w h m = ((w : ℤ), (h : ℤ)) := by
  unfold scaleToFit
  rcases Nat.eq_zero_or_pos (max w h) with hmax | hmax
  · have hw0 : w = 0 := by omega
    have hh0 : h = 0 := by omega
    subst hw0; subst hh0
    simp
  · have hmle : max w h ≤ m := by omega
    have hpos : (0 : ℚ) < ((max w h : ℕ) : ℚ) := by exact_mod_cast hmax
    have h1 : (1 : ℚ) ≤ (m : ℚ) / ((max w h : ℕ) : ℚ) :=
      (one_le_div hpos).mpr (by exact_mod_cast hmle)
    rw [min_eq_left h1]
    simp

/-- For positive dimensions, the two source scale factors agree:
min(maxEdge / w, maxEdge / h) = maxEdge / max(w, h). -/
theorem min_div_eq_div_max (w h m : ℕ) (hw : 1 ≤ w) (hh : 1 ≤ h) :
    min ((m : ℚ) / w) ((m : ℚ) / h) = (m : ℚ) / ((max w h : ℕ) : ℚ) := by
  have hwpos : (0 : ℚ) < (w : ℚ) := by exact_mod_cast hw
  have hhpos : (0 : ℚ) < (h : ℚ) := by exact_mod_cast hh
  rcases le_total w h with hwh | hwh
  · rw [Nat.max_eq_right hwh]
    exact min_eq_right
      (div_le_div_of_nonneg_left (by positivity) hwpos (by exact_mod_cast hwh))
  · rw [Nat.max_eq_left hwh]
    exact min_eq_left
      (div_le_div_of_nonneg_left (by positivity) hhpos (by exact_mod_cast hwh))

/-- For positive dimensions, the guarded variant equals the formula variant. -/
theorem scaleToFitGuarded_eq (w h m : ℕ) (hw : 1 ≤ w) (hh : 1 ≤ h) :
    scaleToFitGuarded w h m = scaleToFit w h m := by
  unfold scaleToFitGuarded
  by_cases hb : w ≤ m ∧ h ≤ m
  · rw [if_pos hb, scaleToFit_id w h m hb.1 hb.2]
  · rw [if_neg hb]
    unfold scaleToFit
    rw [min_div_eq_div_max w h m hw hh]
    have hlt : (m : ℚ) / ((max w h : ℕ) : ℚ) < 1 := by
      have hmlt : m < max w h := by
        rcases not_and_or.mp hb with hwm | hhm
        · exact lt_of_lt_of_le (Nat.lt_of_not_le hwm) (le_max_left _ _)
        · exact lt_of_lt_of_le (Nat.lt_of_not_le hhm) (le_max_right _ _)
      have hpos : (0 : ℚ) < ((max w h : ℕ) : ℚ) := by
        have : 0 < max w h := by omega
        exact_mod_cast this
      rw [div_lt_one hpos]
      exact_mod_cast hmlt
    rw [min_eq_right hlt.le]

/-- C3. The scaling function computes scale = min(1, maxEdge / max(w, h)) and
returns the rounded scaled dimensions: the formula variant does so
definitionally and the guarded variant agrees with it on positive dimensions;
neither variant ever upscales, and when both dimensions are at most maxEdge
both variants return the dimensions unchanged. -/
theorem scaleToFit_claim (w h m : ℕ) :
    scaleToFit w h m =
      (round ((w : ℚ) * min 1 ((m : ℚ) / ((max w h : ℕ) : ℚ))),
        round ((h : ℚ) * min 1 ((m : ℚ) / ((max w h : ℕ) : ℚ)))) ∧
    (1 ≤ w → 1 ≤ h → scaleToFitGuarded w h m = scaleToFit w h m) ∧
    ((scaleToFit w h m).1 ≤ (w : ℤ) ∧ (scaleToFit w h m).2 ≤ (h : ℤ)) ∧
    ((scaleToFitGuarded w h m).1 ≤ (w : ℤ) ∧ (scaleToFitGuarded w h m).2 ≤ (h : ℤ)) ∧
    (w ≤ m → h ≤ m →
      scaleToFit w h m = ((w : ℤ), (h : ℤ)) ∧
        scaleToFitGuarded w h m = ((w : ℤ), (h : ℤ))) := by
  refine ⟨rfl, fun hw hh => scaleToFitGuarded_eq w h m hw hh,
    scaleToFit_le w h m, scaleToFitGuarded_le w h m, fun hw hh => ?_⟩
  refine ⟨scaleToFit_id w h m hw hh, ?_⟩
  unfold scaleToFitGuarded
  rw [if_pos ⟨hw, hh⟩]

/-- C3 witness: instantiation at a 10 x 20 image with maxEdge 100. -/
theorem scaleToFit_claim_witness :
    ((1 : ℕ) ≤ 10 ∧ (1 : ℕ) ≤ 20 ∧ (10 : ℕ) ≤ 100 ∧ (20 : ℕ) ≤ 100) ∧
      scaleToFitGuarded 10 20 100 = scaleToFit 10 20 100 ∧
      scaleToFit 10 20 100 = ((10 : ℤ), (20 : ℤ)) :=
  ⟨⟨by decide, by decide, by decide, by decide⟩,
    (scaleToFit_claim 10 20 100).2.1 (by decide) (by decide),
    ((scaleToFit_claim 10 20 100).2.2.2.2 (by decide) (by decide)).1⟩

/-! ## Lemmas: data-URI prefixes -/

theorem listIsPfx_trans_append {p l : List Char} (h : listIsPfx p l = true)
    (t : List Char) : listIsPfx p (l ++ t) = true := by
  induction p generalizing l with
  | nil => rfl
  | cons a as ih =>
    cases l with
    | nil => simp [listIsPfx] at h
    | cons b bs =>
      simp only [listIsPfx, Bool.and_eq_true] at h ⊢
      exact ⟨h.1, ih h.2⟩

/-- Every encoded output of the modelled canvas encoder carries any prefix of
its fixed JPEG data-URI header. -/
theorem toDataURL_startsWith (encBody : ℚ → String) (q : ℚ) (pre : String)
    (h : listIsPfx pre.data ("data:image/jpeg;base64," : String).data = true) :
    jsStartsWith (toDataURL encBody q) pre = true := by
  unfold jsStartsWith toDataURL
  rw [String.data_append]
  exact listIsPfx_trans_append h _

theorem compressCanvas_ok_eq (encBody : ℚ → String) (q0 maxBytes : ℚ)
    (s : String) (h : compressCanvas encBody q0 maxBytes = .ok s) :
    s = toDataURL encBody (ccFinalQ encBody maxBytes q0) := by
  unfold compressCanvas at h
  split at h
  · exact absurd h (by simp)
  · injection h with h'
    exact h'.symm

theorem canvasToDataURL_nonzero {dims : ℤ × ℤ} (hw : dims.1 ≠ 0)
    (hh : dims.2 ≠ 0) (encBody : ℚ → String) (q : ℚ) :
    canvasToDataURL dims encBody q = toDataURL encBody q := by
  unfold canvasToDataURL
  rw [if_neg (not_or.mpr ⟨hw, hh⟩)]

theorem compressCanvasOn_ok_eq (dims : ℤ × ℤ) (encBody : ℚ → String)
    (q0 maxBytes : ℚ) (s : String)
    (h : compressCanvasOn dims encBody q0 maxBytes = .ok s) :
    s = canvasToDataURL dims encBody (ccFinalQOn dims encBody maxBytes q0) := by
  unfold compressCanvasOn at h
  split at h
  · exact absurd h (by simp)
  · injection h with h2
    exact h2.symm

/-- C10 (amended part). When neither scaled dimension rounds to zero, every
successful output of either resizeAndConvertToJpeg variant begins with
data:image/jpeg (whatever the uploaded format was), hence satisfies the
server handlers' data:image/ prefix check. -/
theorem normalizer_jpeg_prefix_nonzero (encBody : ℚ → String)
    (w h maxEdge : ℕ) (q0 maxBytes : ℚ)
    (hw1 : (scaleToFitGuarded w h maxEdge).1 ≠ 0)
    (hh1 : (scaleToFitGuarded w h maxEdge).2 ≠ 0)
    (hw2 : (scaleToFit w h maxEdge).1 ≠ 0)
    (hh2 : (scaleToFit w h maxEdge).2 ≠ 0) :
    jsStartsWith (resizeWhoFull encBody w h maxEdge q0 maxBytes).2
      "data:image/jpeg" = true ∧
    jsStartsWith (resizeWhoFull encBody w h maxEdge q0 maxBytes).2
      "data:image/" = true ∧
    ∀ r, resizeAbstractifyFull encBody w h maxEdge q0 maxBytes = .ok r →
      jsStartsWith r.2 "data:image/jpeg" = true ∧
        jsStartsWith r.2 "data:image/" = true := by
  have hwho : (resizeWhoFull encBody w h maxEdge q0 maxBytes).2 =
      toDataURL encBody
        (whoFinalQOn (scaleToFitGuarded w h maxEdge) encBody maxBytes q0) := by
    show canvasToDataURL (scaleToFitGuarded w h maxEdge) encBody
        (whoFinalQOn (scaleToFitGuarded w h maxEdge) encBody maxBytes q0) = _
    exact canvasToDataURL_nonzero hw1 hh1 _ _
  refine ⟨?_, ?_, ?_⟩
  · rw [hwho]; exact toDataURL_startsWith _ _ _ (by decide)
  · rw [hwho]; exact toDataURL_startsWith _ _ _ (by decide)
  · intro r hr
    unfold resizeAbstractifyFull at hr
    cases hcc : compressCanvasOn (scaleToFit w h maxEdge) encBody q0 maxBytes with
    | error e => rw [hcc] at hr; exact absurd hr (by simp)
    | ok s =>
      rw [hcc] at hr
      have hs := compressCanvasOn_ok_eq _ _ _ _ _ hcc
      have hr2 : r.2 = s := by
        injection hr with hr'
        rw [← hr']
      rw [hr2, hs, canvasToDataURL_nonzero hw2 hh2]
      exact ⟨toDataURL_startsWith _ _ _ (by decide),
        toDataURL_startsWith _ _ _ (by decide)⟩

/-- C10 witness: at a 100 x 100 upload both scaled dimensions stay 100, so
the amended theorem applies and the who-page output carries the prefix. -/
theorem normalizer_jpeg_prefix_witness :
    ((scaleToFitGuarded 100 100 1200).1 ≠ 0 ∧
        (scaleToFit 100 100 1200).1 ≠ 0) ∧
      jsStartsWith (resizeWhoFull (fun _ => "") 100 100 1200 (22 / 25) 4000000).2
        "data:image/" = true := by
  have hid := scaleToFit_id 100 100 1200 (by norm_num) (by norm_num)
  refine ⟨⟨by decide, by rw [hid]; decide⟩, ?_⟩
  exact (normalizer_jpeg_prefix_nonzero (fun _ => "") 100 100 1200 (22 / 25)
    4000000 (by decide) (by decide) (by rw [hid]; decide)
    (by rw [hid]; decide)).2.1

/-- On a 1 x 2401 bitmap at maxEdge 1200 the who-page scaleToFit rounds the
width to zero: the scale is 1200/2401 and round(1200/2401) = 0. -/
theorem scaleToFitGuarded_rounds_to_zero :
    scaleToFitGuarded 1 2401 1200 = (0, 1200) := by
  unfold scaleToFitGuarded
  rw [if_neg (by omega)]
  rw [Prod.ext_iff]
  constructor
  · show round ((((1 : ℕ)) : ℚ) *
        min (((1200 : ℕ) : ℚ) / (((1 : ℕ)) : ℚ)) (((1200 : ℕ) : ℚ) / (((2401 : ℕ)) : ℚ))) = 0
    have hmin : min (((1200 : ℕ) : ℚ) / (((1 : ℕ)) : ℚ))
        (((1200 : ℕ) : ℚ) / (((2401 : ℕ)) : ℚ)) = 1200 / 2401 := by
      norm_num [min_def]
    rw [hmin, round_eq]
    norm_num
  · show round ((((2401 : ℕ)) : ℚ) *
        min (((1200 : ℕ) : ℚ) / (((1 : ℕ)) : ℚ)) (((1200 : ℕ) : ℚ) / (((2401 : ℕ)) : ℚ))) = 1200
    have hmin : min (((1200 : ℕ) : ℚ) / (((1 : ℕ)) : ℚ))
        (((1200 : ℕ) : ℚ) / (((2401 : ℕ)) : ℚ)) = 1200 / 2401 := by
      norm_num [min_def]
    rw [hmin]
    norm_num

/-- On a 1 x 3601 bitmap at maxEdge 1800 the abstractify-page scaleToFit
rounds the width to zero. -/
theorem scaleToFit_rounds_to_zero :
    scaleToFit 1 3601 1800 = (0, 1800) := by
  unfold scaleToFit
  rw [Prod.ext_iff]
  constructor
  · show round ((((1 : ℕ)) : ℚ) *
        min 1 (((1800 : ℕ) : ℚ) / ((max 1 3601 : ℕ) : ℚ))) = 0
    have hmin : min (1 : ℚ) (((1800 : ℕ) : ℚ) / ((max 1 3601 : ℕ) : ℚ)) =
        1800 / 3601 := by
      norm_num [min_def]
    rw [hmin, round_eq]
    norm_num
  · show round ((((3601 : ℕ)) : ℚ) *
        min 1 (((1800 : ℕ) : ℚ) / ((max 1 3601 : ℕ) : ℚ))) = 1800
    have hmin : min (1 : ℚ) (((1800 : ℕ) : ℚ) / ((max 1 3601 : ℕ) : ℚ)) =
        1800 / 3601 := by
      norm_num [min_def]
    rw [hmin]
    norm_num

/-- C10 counterexample to the claim as stated: a 1 x 2401 upload at the who
page's maxEdge 1200 has its width rounded to 0, so the canvas has no pixels
and toDataURL yields "data:," per the HTML specification; the normalizer
succeeds and its output starts with neither data:image/jpeg nor data:image/.
The abstractify page's compressCanvas does the same on a 1 x 3601 upload at
maxEdge 1800 (the "data:," estimate of 4.5 bytes is far under its 2.5 MB
budget, so it succeeds too). -/
theorem normalizer_nonimage_output_cex :
    (resizeWhoFull (fun _ => "") 1 2401 1200 (22 / 25) 4000000).2 = "data:," ∧
    jsStartsWith (resizeWhoFull (fun _ => "") 1 2401 1200 (22 / 25) 4000000).2
      "data:image/" = false ∧
    jsStartsWith (resizeWhoFull (fun _ => "") 1 2401 1200 (22 / 25) 4000000).2
      "data:image/jpeg" = false ∧
    resizeAbstractifyFull (fun _ => "") 1 3601 1800 (41 / 50) 2621440 =
      .ok (((0 : ℤ), (1800 : ℤ)), "data:,") := by
  have hz1 := scaleToFitGuarded_rounds_to_zero
  have hz2 := scaleToFit_rounds_to_zero
  have h1 : (resizeWhoFull (fun _ => "") 1 2401 1200 (22 / 25) 4000000).2 =
      "data:," := by
    show canvasToDataURL (scaleToFitGuarded 1 2401 1200) (fun _ => "")
        (whoFinalQOn (scaleToFitGuarded 1 2401 1200) (fun _ => "") 4000000
          (22 / 25)) = "data:,"
    rw [hz1]
    rfl
  have h6 : ((("data:," : String).length : ℕ) : ℚ) = 6 := by
    have hl : ("data:," : String).length = 6 := rfl
    exact_mod_cast hl
  have hcc : compressCanvasOn ((0 : ℤ), (1800 : ℤ)) (fun _ => "") (41 / 50)
      2621440 = .ok "data:," := by
    have hcd : ∀ q : ℚ,
        canvasToDataURL ((0 : ℤ), (1800 : ℤ)) (fun _ => "") q = "data:," :=
      fun _ => rfl
    unfold compressCanvasOn
    rw [hcd]
    rw [if_neg ?hno]
    case hno =>
      rw [h6]
      norm_num
  have h2 : resizeAbstractifyFull (fun _ => "") 1 3601 1800 (41 / 50) 2621440 =
      .ok (((0 : ℤ), (1800 : ℤ)), "data:,") := by
    unfold resizeAbstractifyFull
    rw [hz2, hcc]
  refine ⟨h1, ?_, ?_, h2⟩ <;> rw [h1] <;> decide

/-! ## Lemmas: the retry protocol -/

theorem retryCore_calls_le (valid : Json → Bool) (msg : String)
    (cm : String → String) (gen : Bool → Except String String)
    (parse : String → Option Json) :
    (retryCore valid msg cm gen parse).calls ≤ 2 := by
  unfold retryCore
  split
  · exact Nat.le_succ 1
  · split
    · exact Nat.le_succ 1
    · split
      · exact Nat.le_refl 2
      · split
        · exact Nat.le_refl 2
        · exact Nat.le_refl 2

theorem retryCore_calls_two (valid : Json → Bool) (msg : String)
    (cm : String → String) (gen : Bool → Except String String)
    (parse : String → Option Json)
    (h : (retryCore valid msg cm gen parse).calls = 2) :
    ∃ t, gen false = .ok t ∧ validOpt valid (parse t) = false := by
  unfold retryCore at h
  split at h
  · simp at h
  · next t1 heq =>
    split at h
    · simp at h
    · next hv => exact ⟨t1, heq, Bool.not_eq_true _ ▸ Bool.of_not_eq_true hv⟩

theorem retryCore_first_fail (valid : Json → Bool) (msg : String)
    (cm : String → String) (gen : Bool → Except String String)
    (parse : String → Option Json) (t : String) (hg : gen false = .ok t)
    (hv : validOpt valid (parse t) = false) :
    (retryCore valid msg cm gen parse).calls = 2 := by
  unfold retryCore
  rw [hg]
  simp only [hv, Bool.false_eq_true, if_false]
  split
  · rfl
  · split <;> rfl

theorem retryCore_502_calls (valid : Json → Bool) (msg : String)
    (cm : String → String) (gen : Bool → Except String String)
    (parse : String → Option Json) :
    (retryCore valid msg cm gen parse).status = 502 →
      (retryCore valid msg cm gen parse).calls = 2 := by
  unfold retryCore
  split
  · intro h; simp at h
  · split
    · intro h; simp at h
    · split
      · intro h; simp at h
      · split
        · intro h; simp at h
        · intro _; rfl

/-- Every imageGuardPOST response is either the retry protocol's response or
a guard rejection issued before any generator call. -/
theorem imageGuardPOST_cases (valid : Json → Bool) (bodyJ : Except String Json)
    (gen : Bool → Except String String) (parse : String → Option Json) :
    imageGuardPOST valid bodyJ gen parse =
      retryCore valid "Unexpected format from model." id gen parse ∨
      isGuard (imageGuardPOST valid bodyJ gen parse) := by
  unfold imageGuardPOST
  split
  · exact Or.inr ⟨500, _, Or.inr rfl, rfl⟩
  · exact Or.inr ⟨500, _, Or.inr rfl, rfl⟩
  · split
    · exact Or.inr ⟨400, _, Or.inl rfl, rfl⟩
    · exact Or.inr ⟨400, _, Or.inl rfl, rfl⟩
    · split
      · exact Or.inr ⟨400, _, Or.inl rfl, rfl⟩
      · exact Or.inl rfl
    · exact Or.inr ⟨500, _, Or.inr rfl, rfl⟩

theorem titlePOST_cases (bodyJ : Except String Json)
    (gen : Bool → Except String String) (parse : String → Option Json) :
    titlePOST bodyJ gen parse =
      retryCore isTitleResult "The model returned an unexpected format."
        titleCatchMsg gen parse ∨
      isGuard (titlePOST bodyJ gen parse) := by
  unfold titlePOST
  split
  · exact Or.inr ⟨400, _, Or.inl rfl, rfl⟩
  · exact Or.inr ⟨500, _, Or.inr rfl, rfl⟩
  · split
    · exact Or.inr ⟨400, _, Or.inl rfl, rfl⟩
    · exact Or.inr ⟨400, _, Or.inl rfl, rfl⟩
    · split
      · exact Or.inr ⟨400, _, Or.inl rfl, rfl⟩
      · split
        · exact Or.inr ⟨400, _, Or.inl rfl, rfl⟩
        · exact Or.inl rfl
    · exact Or.inr ⟨500, _, Or.inr rfl, rfl⟩

theorem whoImageGuard_cases (img : Option Json)
    (gen : Bool → Except String String) (parse : String → Option Json) :
    whoImageGuard img gen parse = whoRetry gen parse ∨
      isGuard (whoImageGuard img gen parse) := by
  unfold whoImageGuard
  split
  · split
    · exact Or.inr ⟨400, _, Or.inl rfl, rfl⟩
    · exact Or.inl rfl
  · exact Or.inl rfl
  · exact Or.inl rfl
  · split
    · exact Or.inr ⟨500, _, Or.inr rfl, rfl⟩
    · exact Or.inl rfl

theorem whoPOST_cases (bodyJ : Except String Json)
    (gen : Bool → Except String String) (parse : String → Option Json) :
    whoPOST bodyJ gen parse = whoRetry gen parse ∨
      isGuard (whoPOST bodyJ gen parse) := by
  unfold whoPOST
  split
  · exact Or.inr ⟨500, _, Or.inr rfl, rfl⟩
  · exact Or.inr ⟨500, _, Or.inr rfl, rfl⟩
  · split
    · split
      · exact Or.inr ⟨400, _, Or.inl rfl, rfl⟩
      · exact Or.inr ⟨400, _, Or.inl rfl, rfl⟩
      · split
        · exact Or.inr ⟨400, _, Or.inl rfl, rfl⟩
        · exact whoImageGuard_cases _ _ _
      · exact Or.inr ⟨500, _, Or.inr rfl, rfl⟩
    · exact whoImageGuard_cases _ _ _

theorem bound_of_cases {r : HResp} {valid : Json → Bool} {msg : String}
    {cm : String → String} {gen : Bool → Except String String}
    {parse : String → Option Json}
    (h : r = retryCore valid msg cm gen parse ∨ isGuard r) :
    r.calls ≤ 2 ∧
      (r.calls = 2 → ∃ t, gen false = .ok t ∧ validOpt valid (parse t) = false) := by
  rcases h with heq | ⟨st, m, _, heq⟩
  · rw [heq]
    exact ⟨retryCore_calls_le _ _ _ _ _, retryCore_calls_two _ _ _ _ _⟩
  · rw [heq]
    exact ⟨Nat.zero_le 2, fun h2 => absurd h2 (by simp)⟩

theorem retry_of_cases {r : HResp} {valid : Json → Bool} {msg : String}
    {cm : String → String} {gen : Bool → Except String String}
    {parse : String → Option Json}
    (h : r = retryCore valid msg cm gen parse ∨ isGuard r) :
    (r.status = 502 → r.calls = 2) ∧
      (1 ≤ r.calls → ∀ t, gen false = .ok t → validOpt valid (parse t) = false →
        r.calls = 2) := by
  rcases h with heq | ⟨st, m, hst, heq⟩
  · rw [heq]
    exact ⟨retryCore_502_calls _ _ _ _ _,
      fun _ t hg hv => retryCore_first_fail _ _ _ _ _ t hg hv⟩
  · rw [heq]
    constructor
    · intro h5
      rcases hst with rfl | rfl <;> simp at h5
    · intro h1
      simp at h1

theorem statementPOST_calls_le (bodyJ : Except String Json)
    (gen : Bool → Except String String) (parse : String → Option Json) :
    (statementPOST bodyJ gen parse).calls ≤ 1 := by
  unfold statementPOST
  split
  · exact Nat.zero_le 1
  · exact Nat.zero_le 1
  · split
    · exact Nat.le_refl 1
    · split
      · exact Nat.le_refl 1
      · exact Nat.le_refl 1

/-- C4. Per inbound request, every task handler issues at most two generator
calls however parsing or validation turns out, the second call happens only
when the first attempt's text was produced but failed parse-or-validate, and
the statement handler issues at most one call. -/
theorem upstream_call_bound (bodyJ : Except String Json)
    (gen : Bool → Except String String) (parse : String → Option Json) :
    ((titlePOST bodyJ gen parse).calls ≤ 2 ∧
      ((titlePOST bodyJ gen parse).calls = 2 →
        ∃ t, gen false = .ok t ∧ validOpt isTitleResult (parse t) = false)) ∧
    ((abstractifyPOST bodyJ gen parse).calls ≤ 2 ∧
      ((abstractifyPOST bodyJ gen parse).calls = 2 →
        ∃ t, gen false = .ok t ∧ validOpt isAbstractResult (parse t) = false)) ∧
    ((critiquePOST bodyJ gen parse).calls ≤ 2 ∧
      ((critiquePOST bodyJ gen parse).calls = 2 →
        ∃ t, gen false = .ok t ∧ validOpt isCritiqueResult (parse t) = false)) ∧
    ((seriesPOST bodyJ gen parse).calls ≤ 2 ∧
      ((seriesPOST bodyJ gen parse).calls = 2 →
        ∃ t, gen false = .ok t ∧ validOpt isSeriesResult (parse t) = false)) ∧
    ((whoPOST bodyJ gen parse).calls ≤ 2 ∧
      ((whoPOST bodyJ gen parse).calls = 2 →
        ∃ t, gen false = .ok t ∧ validOpt isWhoResult (parse t) = false)) ∧
    (statementPOST bodyJ gen parse).calls ≤ 1 :=
  ⟨bound_of_cases (titlePOST_cases bodyJ gen parse),
    bound_of_cases (imageGuardPOST_cases isAbstractResult bodyJ gen parse),
    bound_of_cases (imageGuardPOST_cases isCritiqueResult bodyJ gen parse),
    bound_of_cases (imageGuardPOST_cases isSeriesResult bodyJ gen parse),
    bound_of_cases (whoPOST_cases bodyJ gen parse),
    statementPOST_calls_le bodyJ gen parse⟩

/-- C4 witness: a request whose first attempt fails validation makes the
title handler issue exactly two calls. -/
theorem upstream_call_bound_witness :
    (titlePOST (.ok (.obj [("imageDataUrl", .str "data:image/png;base64,AA")]))
        (fun _ => .ok "x") (fun _ => none)).calls ≤ 2 ∧
      (∃ t, (fun _ => .ok "x" : Bool → Except String String) false = .ok t ∧
        validOpt isTitleResult ((fun _ => none : String → Option Json) t) = false) ∧
      (statementPOST (.ok (.obj [("imageDataUrl", .str "data:image/png;base64,AA")]))
        (fun _ => .ok "x") (fun _ => none)).calls ≤ 1 :=
  ⟨(upstream_call_bound _ _ _).1.1,
    (upstream_call_bound (.ok (.obj [("imageDataUrl", .str "data:image/png;base64,AA")]))
      (fun _ => .ok "x") (fun _ => none)).1.2 (by decide),
    (upstream_call_bound _ _ _).2.2.2.2.2⟩

/-- C5 (amended part). The five retrying handlers surface 502 only after two
generator calls, and whenever any call was made and the first attempt's text
failed parse-or-validate, a second strict call is issued. -/
theorem strict_retry_before_502 (bodyJ : Except String Json)
    (gen : Bool → Except String String) (parse : String → Option Json) :
    (((titlePOST bodyJ gen parse).status = 502 → (titlePOST bodyJ gen parse).calls = 2) ∧
      (1 ≤ (titlePOST bodyJ gen parse).calls →
        ∀ t, gen false = .ok t → validOpt isTitleResult (parse t) = false →
          (titlePOST bodyJ gen parse).calls = 2)) ∧
    (((abstractifyPOST bodyJ gen parse).status = 502 →
        (abstractifyPOST bodyJ gen parse).calls = 2) ∧
      (1 ≤ (abstractifyPOST bodyJ gen parse).calls →
        ∀ t, gen false = .ok t → validOpt isAbstractResult (parse t) = false →
          (abstractifyPOST bodyJ gen parse).calls = 2)) ∧
    (((critiquePOST bodyJ gen parse).status = 502 →
        (critiquePOST bodyJ gen parse).calls = 2) ∧
      (1 ≤ (critiquePOST bodyJ gen parse).calls →
        ∀ t, gen false = .ok t → validOpt isCritiqueResult (parse t) = false →
          (critiquePOST bodyJ gen parse).calls = 2)) ∧
    (((seriesPOST bodyJ gen parse).status = 502 →
        (seriesPOST bodyJ gen parse).calls = 2) ∧
      (1 ≤ (seriesPOST bodyJ gen parse).calls →
        ∀ t, gen false = .ok t → validOpt isSeriesResult (parse t) = false →
          (seriesPOST bodyJ gen parse).calls = 2)) ∧
    (((whoPOST bodyJ gen parse).status = 502 → (whoPOST bodyJ gen parse).calls = 2) ∧
      (1 ≤ (whoPOST bodyJ gen parse).calls →
        ∀ t, gen false = .ok t → validOpt isWhoResult (parse t) = false →
          (whoPOST bodyJ gen parse).calls = 2)) :=
  ⟨retry_of_cases (titlePOST_cases bodyJ gen parse),
    retry_of_cases (imageGuardPOST_cases isAbstractResult bodyJ gen parse),
    retry_of_cases (imageGuardPOST_cases isCritiqueResult bodyJ gen parse),
    retry_of_cases (imageGuardPOST_cases isSeriesResult bodyJ gen parse),
    retry_of_cases (whoPOST_cases bodyJ gen parse)⟩

/-- C5 witness: a concrete request on which the abstractify handler's first
attempt fails and the strict second call is made before the 502. -/
theorem strict_retry_before_502_witness :
    (abstractifyPOST (.ok (.obj [("imageDataUrl", .str "data:image/jpeg;base64,AA")]))
        (fun _ => .ok "plain prose") (fun _ => none)).status = 502 ∧
      (abstractifyPOST (.ok (.obj [("imageDataUrl", .str "data:image/jpeg;base64,AA")]))
        (fun _ => .ok "plain prose") (fun _ => none)).calls = 2 :=
  ⟨by decide,
    (strict_retry_before_502 (.ok (.obj [("imageDataUrl", .str "data:image/jpeg;base64,AA")]))
      (fun _ => .ok "plain prose") (fun _ => none)).2.1.1 (by decide)⟩

/-- C5 counterexample to the claim as stated: the statement handler rejects
with 502 after a single upstream attempt, with no strict-mode retry. -/
theorem statement_single_attempt_cex :
    (statementPOST (.ok (.obj [])) (fun _ => .ok "not json") (fun _ => none)).status = 502 ∧
      (statementPOST (.ok (.obj [])) (fun _ => .ok "not json") (fun _ => none)).calls = 1 := by
  decide

/-! ## Lemmas: error response shape -/

theorem errBody_shape (m : String) : errShape (errBody m) := ⟨m, rfl⟩

theorem errDebugBody_err (m d : String) : errShape (errDebugBody m d) := ⟨m, rfl⟩

theorem errDebugBody_debug (m d : String) :
    (errDebugBody m d).jget "debug" = some (.str d) := rfl

theorem jsSlice_len_le (s : String) (n : ℕ) : (jsSlice s n).length ≤ n := by
  show (s.data.take n).length ≤ n
  rw [List.length_take]
  exact min_le_left _ _

theorem retryCore_shape (valid : Json → Bool) (msg : String) (cm : String → String)
    (gen : Bool → Except String String) (parse : String → Option Json) :
    ((retryCore valid msg cm gen parse).status ≠ 200 →
      errShape (retryCore valid msg cm gen parse).body) ∧
    ((retryCore valid msg cm gen parse).status = 502 →
      debugShape (retryCore valid msg cm gen parse).body) := by
  unfold retryCore
  split
  · exact ⟨fun _ => errBody_shape _, fun h => by simp at h⟩
  · split
    · exact ⟨fun hne => absurd rfl hne, fun h => by simp at h⟩
    · split
      · exact ⟨fun _ => errBody_shape _, fun h => by simp at h⟩
      · split
        · exact ⟨fun hne => absurd rfl hne, fun h => by simp at h⟩
        · exact ⟨fun _ => errDebugBody_err _ _,
            fun _ => ⟨jsSlice _ 4000, errDebugBody_debug _ _, jsSlice_len_le _ _⟩⟩

theorem guard_shape {r : HResp} (h : isGuard r) :
    (r.status ≠ 200 → errShape r.body) ∧ (r.status = 502 → debugShape r.body) := by
  obtain ⟨st, m, hst, rfl⟩ := h
  exact ⟨fun _ => errBody_shape m, fun h5 => by rcases hst with rfl | rfl <;> simp at h5⟩

theorem shape_of_cases {r : HResp} {valid : Json → Bool} {msg : String}
    {cm : String → String} {gen : Bool → Except String String}
    {parse : String → Option Json}
    (h : r = retryCore valid msg cm gen parse ∨ isGuard r) :
    (r.status ≠ 200 → errShape r.body) ∧ (r.status = 502 → debugShape r.body) := by
  rcases h with heq | hg
  · rw [heq]
    exact retryCore_shape _ _ _ _ _
  · exact guard_shape hg

theorem statementPOST_shape (bodyJ : Except String Json)
    (gen : Bool → Except String String) (parse : String → Option Json) :
    ((statementPOST bodyJ gen parse).status ≠ 200 →
      errShape (statementPOST bodyJ gen parse).body) ∧
    ((statementPOST bodyJ gen parse).status = 502 →
      debugShape (statementPOST bodyJ gen parse).body) := by
  unfold statementPOST
  split
  · exact ⟨fun _ => errBody_shape _, fun h => by simp at h⟩
  · exact ⟨fun _ => errBody_shape _, fun h => by simp at h⟩
  · split
    · exact ⟨fun _ => errBody_shape _, fun h => by simp at h⟩
    · split
      · exact ⟨fun hne => absurd rfl hne, fun h => by simp at h⟩
      · exact ⟨fun _ => errDebugBody_err _ _,
          fun _ => ⟨jsSlice _ 2000, errDebugBody_debug _ _,
            le_trans (jsSlice_len_le _ _) (by norm_num)⟩⟩

/-- C8. Every non-200 response of every task handler carries a JSON body with
a string error field, and every 502 response additionally carries a string
debug field of at most 4000 characters. -/
theorem error_shape_stable (bodyJ : Except String Json)
    (gen : Bool → Except String String) (parse : String → Option Json) :
    (((titlePOST bodyJ gen parse).status ≠ 200 →
        errShape (titlePOST bodyJ gen parse).body) ∧
      ((titlePOST bodyJ gen parse).status = 502 →
        debugShape (titlePOST bodyJ gen parse).body)) ∧
    (((abstractifyPOST bodyJ gen parse).status ≠ 200 →
        errShape (abstractifyPOST bodyJ gen parse).body) ∧
      ((abstractifyPOST bodyJ gen parse).status = 502 →
        debugShape (abstractifyPOST bodyJ gen parse).body)) ∧
    (((critiquePOST bodyJ gen parse).status ≠ 200 →
        errShape (critiquePOST bodyJ gen parse).body) ∧
      ((critiquePOST bodyJ gen parse).status = 502 →
        debugShape (critiquePOST bodyJ gen parse).body)) ∧
    (((seriesPOST bodyJ gen parse).status ≠ 200 →
        errShape (seriesPOST bodyJ gen parse).body) ∧
      ((seriesPOST bodyJ gen parse).status = 502 →
        debugShape (seriesPOST bodyJ gen parse).body)) ∧
    (((whoPOST bodyJ gen parse).status ≠ 200 →
        errShape (whoPOST bodyJ gen parse).body) ∧
      ((whoPOST bodyJ gen parse).status = 502 →
        debugShape (whoPOST bodyJ gen parse).body)) ∧
    (((statementPOST bodyJ gen parse).status ≠ 200 →
        errShape (statementPOST bodyJ gen parse).body) ∧
      ((statementPOST bodyJ gen parse).status = 502 →
        debugShape (statementPOST bodyJ gen parse).body)) :=
  ⟨shape_of_cases (titlePOST_cases bodyJ gen parse),
    shape_of_cases (imageGuardPOST_cases isAbstractResult bodyJ gen parse),
    shape_of_cases (imageGuardPOST_cases isCritiqueResult bodyJ gen parse),
    shape_of_cases (imageGuardPOST_cases isSeriesResult bodyJ gen parse),
    shape_of_cases (whoPOST_cases bodyJ gen parse),
    statementPOST_shape bodyJ gen parse⟩

/-- C8 witness: a malformed body gives a 400 with an error field from the
title handler, and a failing statement request gives a 502 whose body has
the bounded debug field. -/
theorem error_shape_stable_witness :
    errShape (titlePOST (.error "bad") (fun _ => .ok "x") (fun _ => none)).body ∧
      debugShape (statementPOST (.ok (.obj [])) (fun _ => .ok "not json")
        (fun _ => none)).body :=
  ⟨(error_shape_stable (.error "bad") (fun _ => .ok "x") (fun _ => none)).1.1
      (by decide),
    (error_shape_stable (.ok (.obj [])) (fun _ => .ok "not json")
      (fun _ => none)).2.2.2.2.2.2 (by decide)⟩

/-! ## Lemmas: payload size ceilings -/

theorem jget_some {b : Json} {k : String} {v : Json} (h : b.jget k = some v) :
    ∃ fs, b = .obj fs := by
  cases b with
  | obj fs => exact ⟨fs, rfl⟩
  | null => exact absurd h (by simp [Json.jget])
  | bool x => exact absurd h (by simp [Json.jget])
  | num x => exact absurd h (by simp [Json.jget])
  | str x => exact absurd h (by simp [Json.jget])
  | arr x => exact absurd h (by simp [Json.jget])

theorem bigImage_startsWith : jsStartsWith bigImage "data:image/" = true := by
  unfold bigImage jsStartsWith
  rw [String.data_append]
  exact listIsPfx_trans_append (by decide) _

theorem bigImage_length : bigImage.length = 10500000 := by
  have h2 : (String.mk (List.replicate 10499989 'a')).length = 10499989 := by
    show (List.replicate 10499989 'a').length = 10499989
    exact List.length_replicate ..
  unfold bigImage
  rw [String.length_append, h2]
  decide

/-- C9 (amended part). The title handler enforces the 10,000,000-character
ceiling: any request whose image data URL has the image marker but exceeds
the ceiling is answered 400 Image too large with no generator call. -/
theorem title_size_ceiling (b : Json) (gen : Bool → Except String String)
    (parse : String → Option Json) (s : String)
    (himg : b.jget "imageDataUrl" = some (.str s))
    (hpfx : jsStartsWith s "data:image/" = true)
    (hlen : s.length > 10000000) :
    titlePOST (.ok b) gen parse =
      ⟨400, errBody "Image too large. Please use a smaller image.", 0⟩ := by
  obtain ⟨fs, rfl⟩ := jget_some himg
  simp only [titlePOST, himg, hpfx, Bool.not_true, Bool.false_eq_true, if_false]
  rw [if_pos hlen]

/-- C9 witness: the title handler at the concrete oversized image. -/
theorem title_size_ceiling_witness :
    jsStartsWith bigImage "data:image/" = true ∧ bigImage.length > 10000000 ∧
      titlePOST (.ok (.obj [("imageDataUrl", .str bigImage)])) (fun _ => .ok "x")
        (fun _ => none) =
        ⟨400, errBody "Image too large. Please use a smaller image.", 0⟩ :=
  ⟨bigImage_startsWith, by rw [bigImage_length]; norm_num,
    title_size_ceiling _ _ _ _ rfl bigImage_startsWith
      (by rw [bigImage_length]; norm_num)⟩

theorem whoPOST_bigImage_eval :
    whoPOST (.ok (.obj [("imageDataUrl", .str bigImage)])) (fun _ => .ok "x")
      (fun _ => none) = whoRetry (fun _ => .ok "x") (fun _ => none) := by
  have h1 : optTruthy ((Json.obj [("imageDataUrl", .str bigImage)]).jget
      "imageDataUrl") = true := by
    show (bigImage.length != 0) = true
    rw [bigImage_length]
    decide
  have hget : (Json.obj [("imageDataUrl", .str bigImage)]).jget "imageDataUrl" =
      some (.str bigImage) := rfl
  simp only [whoPOST, h1, Bool.not_true, Bool.false_eq_true, if_false]
  simp only [whoImageGuard, hget, bigImage_startsWith, Bool.not_true,
    Bool.and_false, Bool.false_eq_true, if_false]

/-- C9 counterexample to the claim as stated: the who handler has no size
ceiling; the same 10,500,000-character image passes its guards, the generator
is called (twice here, since the stub answers are invalid) and the response
is a 502, not a 400 with no upstream call. -/
theorem who_no_size_ceiling_cex :
    bigImage.length = 10500000 ∧
      (whoPOST (.ok (.obj [("imageDataUrl", .str bigImage)])) (fun _ => .ok "x")
        (fun _ => none)).status = 502 ∧
      (whoPOST (.ok (.obj [("imageDataUrl", .str bigImage)])) (fun _ => .ok "x")
        (fun _ => none)).calls = 2 := by
  refine ⟨bigImage_length, ?_, ?_⟩ <;> rw [whoPOST_bigImage_eval] <;> decide

/-! ## Lemmas: the title validator -/

/-- C7 (amended part). The title validator is purely type-checking: any
candidate whose tone is a string, whose titles and tags are arrays of strings
and whose top_rationales are objects with string title and why_it_fits is
accepted, whatever the array cardinalities are. -/
theorem isTitleResult_no_cardinality (tone : String) (titles tags : List String)
    (trs : List (String × String)) :
    isTitleResult (.obj [("tone", .str tone),
      ("titles", .arr (titles.map .str)),
      ("top_rationales", .arr (trs.map fun r =>
        .obj [("title", .str r.1), ("why_it_fits", .str r.2)])),
      ("tags", .arr (tags.map .str))]) = true := by
  have hmap : ∀ (l : List String), (l.map Json.str).all isStr = true := by
    intro l
    induction l with
    | nil => rfl
    | cons a as ih =>
      simp only [List.map_cons, List.all_cons, Bool.and_eq_true]
      exact ⟨rfl, ih⟩
  simp [isTitleResult, Json.jget, List.lookup, Json.truthy, Json.objLike, hmap]
  refine ⟨rfl, ?_⟩
  intro x a b hmem heq
  subst heq
  exact ⟨⟨⟨rfl, rfl⟩, rfl⟩, rfl⟩

/-- C7 counterexample to the claim as stated: a candidate with 0 titles, 0
rationales and 0 tags (instead of the required 12, 3 and 5-7) is accepted by
the title validator; the cardinality bounds live only in the schema sent to
the generator, not in the validator. -/
theorem isTitleResult_cardinality_cex :
    isTitleResult (.obj [("tone", .str "poetic"), ("titles", .arr []),
      ("top_rationales", .arr []), ("tags", .arr [])]) = true ∧
      (Json.obj [("tone", .str "poetic"), ("titles", .arr []),
        ("top_rationales", .arr []), ("tags", .arr [])]).jget "titles" =
        some (.arr []) ∧
      ([] : List Json).length ≠ 12 :=
  ⟨by decide, rfl, by decide⟩


theorem pathsEvery_true (paths : List Json) (acc : List (Option Json)) :
    (pathsEvery paths acc).1 = true ↔
      ∀ p ∈ paths, (p.truthy && p.objLike && pathCheck p) = true := by
  induction paths generalizing acc with
  | nil => simp [pathsEvery]
  | cons p rest ih =>
    by_cases h1 : (!p.truthy || !p.objLike) = true
    · rw [pathsEvery, if_pos h1]
      constructor
      · intro hf; exact absurd hf (by simp)
      · intro hall
        have hp := hall p (List.mem_cons_self _ _)
        rcases Bool.or_eq_true_iff.mp h1 with h | h
        · have hx : p.truthy = false := by revert h; cases p.truthy <;> simp
          rw [hx] at hp; simp at hp
        · have hx : p.objLike = false := by revert h; cases p.objLike <;> simp
          rw [hx] at hp; simp at hp
    · have h1f : (!p.truthy || !p.objLike) = false := by
        revert h1; cases (!p.truthy || !p.objLike) <;> simp
      have ht : p.truthy = true := by
        rcases Bool.or_eq_false_iff.mp h1f with ⟨ha, _⟩
        revert ha; cases p.truthy <;> simp
      have ho : p.objLike = true := by
        rcases Bool.or_eq_false_iff.mp h1f with ⟨_, hb⟩
        revert hb; cases p.objLike <;> simp
      rw [pathsEvery, if_neg h1]
      by_cases h2 : pathCheck p = true
      · rw [if_pos h2, ih]
        constructor
        · intro hall q hq
          rcases List.mem_cons.mp hq with rfl | hq'
          · rw [ht, ho, h2]; rfl
          · exact hall q hq'
        · intro hall q hq
          exact hall q (List.mem_cons_of_mem _ hq)
      · rw [if_neg h2]
        constructor
        · intro hf; exact absurd hf (by simp)
        · intro hall
          have hp := hall p (List.mem_cons_self _ _)
          rw [ht, ho] at hp
          simp at hp
          exact absurd hp h2

theorem pathsEvery_acc (paths : List Json) (acc : List (Option Json))
    (h : (pathsEvery paths acc).1 = true) :
    (pathsEvery paths acc).2 = acc ++ paths.map (fun p => p.jget "level") := by
  induction paths generalizing acc with
  | nil => simp [pathsEvery]
  | cons p rest ih =>
    by_cases h1 : (!p.truthy || !p.objLike) = true
    · rw [pathsEvery, if_pos h1] at h
      simp at h
    · rw [pathsEvery, if_neg h1] at h ⊢
      by_cases h2 : pathCheck p = true
      · rw [if_pos h2] at h ⊢
        rw [ih _ h]
        simp
      · rw [if_neg h2] at h
        simp at h

theorem hasNum_iff (levels : List (Option Json)) (n : ℚ) :
    hasNum levels n = true ↔ some (Json.num n) ∈ levels := by
  unfold hasNum
  rw [List.any_eq_true]
  constructor
  · rintro ⟨v, hv, hm⟩
    have hveq : v = some (Json.num n) := by
      cases v with
      | none => simp at hm
      | some j =>
        cases j with
        | num m =>
          have hmn : m = n := by simpa using hm
          rw [hmn]
        | null => simp at hm
        | bool b => simp at hm
        | str s => simp at hm
        | arr l => simp at hm
        | obj fs => simp at hm
    rwa [hveq] at hv
  · intro hm
    exact ⟨some (.num n), hm, by simp⟩

theorem isAbstractResult_iff (fs : List (String × Json)) (paths : List Json)
    (hp : (Json.obj fs).jget "paths" = some (.arr paths))
    (h5 : paths.length = 5) :
    isAbstractResult (.obj fs) = true ↔
      (briefOkA (.obj fs) = true ∧ closingOkA (.obj fs) = true ∧
        (∀ p ∈ paths, (p.truthy && p.objLike && pathCheck p) = true) ∧
        ∀ n ∈ ([1, 2, 3, 4, 5] : List ℚ),
          some (Json.num n) ∈ paths.map (fun p => p.jget "level")) := by
  unfold isAbstractResult
  simp only [hp, Json.truthy, Json.objLike, Bool.not_true, Bool.or_self,
    Bool.false_eq_true, if_false]
  rw [if_neg (by omega)]
  constructor
  · intro hres
    simp only [Bool.and_eq_true] at hres
    obtain ⟨⟨⟨hb, hc⟩, hpe⟩, ⟨⟨⟨hl1, hl2⟩, hl3⟩, hl4⟩, hl5⟩ := hres
    have hacc := pathsEvery_acc paths [] hpe
    rw [hacc] at hl1 hl2 hl3 hl4 hl5
    simp only [List.nil_append] at hl1 hl2 hl3 hl4 hl5
    refine ⟨hb, hc, (pathsEvery_true paths []).mp hpe, ?_⟩
    intro n hn
    have hn2 : n = 1 ∨ n = 2 ∨ n = 3 ∨ n = 4 ∨ n = 5 := by simpa using hn
    rcases hn2 with rfl | rfl | rfl | rfl | rfl
    · exact (hasNum_iff _ _).mp hl1
    · exact (hasNum_iff _ _).mp hl2
    · exact (hasNum_iff _ _).mp hl3
    · exact (hasNum_iff _ _).mp hl4
    · exact (hasNum_iff _ _).mp hl5
  · rintro ⟨hb, hc, hall, hcov⟩
    have hpe := (pathsEvery_true paths []).mpr hall
    have hacc := pathsEvery_acc paths [] hpe
    simp only [Bool.and_eq_true]
    refine ⟨⟨⟨hb, hc⟩, hpe⟩, ⟨⟨⟨⟨?_, ?_⟩, ?_⟩, ?_⟩, ?_⟩⟩ <;>
      rw [hacc] <;> simp only [List.nil_append] <;>
      exact (hasNum_iff _ _).mpr (hcov _ (by norm_num))


/-- C6. The abstractify validator enforces the covering-set constraint on the
five path levels: a five-path candidate whose level multiset is not exactly
{1,2,3,4,5} is rejected whatever its other fields are, and a candidate whose
levels are a permutation of {1,2,3,4,5} is accepted as soon as the remaining
field checks pass. -/
theorem abstractify_levels_cover (v : Json) (paths : List Json)
    (hp : v.jget "paths" = some (.arr paths)) (h5 : paths.length = 5) :
    (¬ (paths.map (fun p => p.jget "level")).Perm
        (([1, 2, 3, 4, 5] : List ℚ).map (fun n => some (Json.num n))) →
      isAbstractResult v = false) ∧
    ((paths.map (fun p => p.jget "level")).Perm
        (([1, 2, 3, 4, 5] : List ℚ).map (fun n => some (Json.num n))) →
      briefOkA v = true → closingOkA v = true →
      (∀ p ∈ paths, (p.truthy && p.objLike && pathOtherOk p) = true) →
      isAbstractResult v = true) := by
  obtain ⟨fs, rfl⟩ := jget_some hp
  constructor
  · intro hnp
    cases hB : isAbstractResult (.obj fs) with
    | false => rfl
    | true =>
      exfalso
      obtain ⟨_, _, hall, hcov⟩ := (isAbstractResult_iff fs paths hp h5).mp hB
      apply hnp
      have hTsub : (([1, 2, 3, 4, 5] : List ℚ).map (fun n => some (Json.num n))) ⊆
          paths.map (fun p => p.jget "level") := by
        intro x hx
        simp only [List.mem_map] at hx
        obtain ⟨n, hn, rfl⟩ := hx
        exact hcov n hn
      have hTnodup :
          (([1, 2, 3, 4, 5] : List ℚ).map (fun n => some (Json.num n))).Nodup := by
        refine List.Nodup.map ?_ ?_
        · intro a b hab
          simpa using hab
        · decide
      have hsub := List.subperm_of_subset hTnodup hTsub
      have hlen : (paths.map (fun p => p.jget "level")).length ≤
          (([1, 2, 3, 4, 5] : List ℚ).map (fun n => some (Json.num n))).length := by
        simp [h5]
      exact (hsub.perm_of_length_le hlen).symm
  · intro hperm hb hc hother
    apply (isAbstractResult_iff fs paths hp h5).mpr
    refine ⟨hb, hc, ?_, ?_⟩
    · intro p hpmem
      have hoth := hother p hpmem
      simp only [Bool.and_eq_true] at hoth ⊢
      obtain ⟨⟨ht, ho⟩, hpo⟩ := hoth
      refine ⟨⟨ht, ho⟩, ?_⟩
      unfold pathCheck
      rw [Bool.and_eq_true]
      refine ⟨?_, hpo⟩
      have hmem : p.jget "level" ∈ paths.map (fun q => q.jget "level") :=
        List.mem_map_of_mem _ hpmem
      have hmemT := hperm.subset hmem
      simp only [List.mem_map] at hmemT
      obtain ⟨n, hn, hnl⟩ := hmemT
      unfold levelIn
      rw [← hnl]
      have hn2 : n = 1 ∨ n = 2 ∨ n = 3 ∨ n = 4 ∨ n = 5 := by simpa using hn
      rcases hn2 with rfl | rfl | rfl | rfl | rfl <;> decide
    · intro n hn
      have hmemT : some (Json.num n) ∈
          ([1, 2, 3, 4, 5] : List ℚ).map (fun m => some (Json.num m)) :=
        List.mem_map_of_mem _ hn
      exact hperm.symm.subset hmemT

/-- C6 witness: a candidate with levels in the order 2,1,3,5,4 would also be
accepted; here the acceptance branch is exercised with levels 1..5 and the
rejection branch with the duplicate-level candidate {1,2,3,4,4} named in the
claim. -/
theorem abstractify_levels_cover_witness :
    isAbstractResult (.obj [("brief_read", .str "a sufficiently long read!"),
      ("closing_line", .str "closing"),
      ("paths", .arr [
        .obj [("level", .num 1), ("label", .str "a"), ("what_to_do", .str "b"),
          ("why_interesting", .str "c")],
        .obj [("level", .num 2), ("label", .str "a"), ("what_to_do", .str "b"),
          ("why_interesting", .str "c")],
        .obj [("level", .num 3), ("label", .str "a"), ("what_to_do", .str "b"),
          ("why_interesting", .str "c")],
        .obj [("level", .num 4), ("label", .str "a"), ("what_to_do", .str "b"),
          ("why_interesting", .str "c")],
        .obj [("level", .num 5), ("label", .str "a"), ("what_to_do", .str "b"),
          ("why_interesting", .str "c")]])]) = true ∧
    isAbstractResult (.obj [("brief_read", .str "a sufficiently long read!"),
      ("closing_line", .str "closing"),
      ("paths", .arr [
        .obj [("level", .num 1), ("label", .str "a"), ("what_to_do", .str "b"),
          ("why_interesting", .str "c")],
        .obj [("level", .num 2), ("label", .str "a"), ("what_to_do", .str "b"),
          ("why_interesting", .str "c")],
        .obj [("level", .num 3), ("label", .str "a"), ("what_to_do", .str "b"),
          ("why_interesting", .str "c")],
        .obj [("level", .num 4), ("label", .str "a"), ("what_to_do", .str "b"),
          ("why_interesting", .str "c")],
        .obj [("level", .num 4), ("label", .str "a"), ("what_to_do", .str "b"),
          ("why_interesting", .str "c")]])]) = false := by
  constructor
  · exact (abstractify_levels_cover
      (.obj [("brief_read", .str "a sufficiently long read!"),
      ("closing_line", .str "closing"),
      ("paths", .arr [
        .obj [("level", .num 1), ("label", .str "a"), ("what_to_do", .str "b"),
          ("why_interesting", .str "c")],
        .obj [("level", .num 2), ("label", .str "a"), ("what_to_do", .str "b"),
          ("why_interesting", .str "c")],
        .obj [("level", .num 3), ("label", .str "a"), ("what_to_do", .str "b"),
          ("why_interesting", .str "c")],
        .obj [("level", .num 4), ("label", .str "a"), ("what_to_do", .str "b"),
          ("why_interesting", .str "c")],
        .obj [("level", .num 5), ("label", .str "a"), ("what_to_do", .str "b"),
          ("why_interesting", .str "c")]])])
      [
        .obj [("level", .num 1), ("label", .str "a"), ("what_to_do", .str "b"),
          ("why_interesting", .str "c")],
        .obj [("level", .num 2), ("label", .str "a"), ("what_to_do", .str "b"),
          ("why_interesting", .str "c")],
        .obj [("level", .num 3), ("label", .str "a"), ("what_to_do", .str "b"),
          ("why_interesting", .str "c")],
        .obj [("level", .num 4), ("label", .str "a"), ("what_to_do", .str "b"),
          ("why_interesting", .str "c")],
        .obj [("level", .num 5), ("label", .str "a"), ("what_to_do", .str "b"),
          ("why_interesting", .str "c")]] rfl rfl).2 (List.Perm.refl _)
      (by decide) (by decide) (by decide)
  · refine (abstractify_levels_cover
      (.obj [("brief_read", .str "a sufficiently long read!"),
      ("closing_line", .str "closing"),
      ("paths", .arr [
        .obj [("level", .num 1), ("label", .str "a"), ("what_to_do", .str "b"),
          ("why_interesting", .str "c")],
        .obj [("level", .num 2), ("label", .str "a"), ("what_to_do", .str "b"),
          ("why_interesting", .str "c")],
        .obj [("level", .num 3), ("label", .str "a"), ("what_to_do", .str "b"),
          ("why_interesting", .str "c")],
        .obj [("level", .num 4), ("label", .str "a"), ("what_to_do", .str "b"),
          ("why_interesting", .str "c")],
        .obj [("level", .num 4), ("label", .str "a"), ("what_to_do", .str "b"),
          ("why_interesting", .str "c")]])])
      [
        .obj [("level", .num 1), ("label", .str "a"), ("what_to_do", .str "b"),
          ("why_interesting", .str "c")],
        .obj [("level", .num 2), ("label", .str "a"), ("what_to_do", .str "b"),
          ("why_interesting", .str "c")],
        .obj [("level", .num 3), ("label", .str "a"), ("what_to_do", .str "b"),
          ("why_interesting", .str "c")],
        .obj [("level", .num 4), ("label", .str "a"), ("what_to_do", .str "b"),
          ("why_interesting", .str "c")],
        .obj [("level", .num 4), ("label", .str "a"), ("what_to_do", .str "b"),
          ("why_interesting", .str "c")]] rfl rfl).1 ?_
    intro hperm
    have h5mem := hperm.symm.subset
      (List.mem_map_of_mem (fun m => some (Json.num m))
        (by norm_num : (5 : ℚ) ∈ ([1, 2, 3, 4, 5] : List ℚ)))
    have heq : ([Json.obj [("level", Json.num 1), ("label", Json.str "a"),
          ("what_to_do", Json.str "b"), ("why_interesting", Json.str "c")],
        Json.obj [("level", Json.num 2), ("label", Json.str "a"),
          ("what_to_do", Json.str "b"), ("why_interesting", Json.str "c")],
        Json.obj [("level", Json.num 3), ("label", Json.str "a"),
          ("what_to_do", Json.str "b"), ("why_interesting", Json.str "c")],
        Json.obj [("level", Json.num 4), ("label", Json.str "a"),
          ("what_to_do", Json.str "b"), ("why_interesting", Json.str "c")],
        Json.obj [("level", Json.num 4), ("label", Json.str "a"),
          ("what_to_do", Json.str "b"), ("why_interesting", Json.str "c")]].map
        (fun p => p.jget "level")) =
        [some (Json.num 1), some (Json.num 2), some (Json.num 3),
          some (Json.num 4), some (Json.num 4)] := rfl
    rw [heq] at h5mem
    simp at h5mem


end ArtGen
